import Mathlib

/-!
Verification of the intent-to-API mapping and response-shaping layer of the
inventory voice agent (src/services/agent.py).  The Python code is shallowly
embedded: JSON values are an inductive type whose numbers are exact decimals
`m / 10 ^ e`; Python dict access, truthiness, string interpolation and the
two-decimal currency format are modelled as executable Lean functions; each
tool method becomes a pure function from its typed arguments and the outcome
of the single HTTP exchange to an `Outcome` (returned string, raised
`ToolError`, or an unhandled Python-level error).
-/

set_option maxRecDepth 16384

namespace Inventory

/-- JSON values as decoded from a response body.  A number is the exact
decimal `m / 10 ^ e`; `e = 0` corresponds to a Python `int`, `e > 0` to a
`float` carrying that many decimal digits. -/
inductive Json where
  | null : Json
  | bool : Bool → Json
  | num : Int → Nat → Json
  | str : String → Json
  | arr : List Json → Json
  | obj : List (String × Json) → Json

/-- Association-list lookup where a later binding for the same key wins,
matching Python dict construction and `json` object decoding. -/
def jLookup (fs : List (String × Json)) (k : String) : Option Json :=
  match fs with
  | [] => none
  | (k1, v) :: rest =>
    match jLookup rest k with
    | some v2 => some v2
    | none => if k1 = k then some v else none

/-- Python truthiness of a JSON value (`if x:`). -/
def pyTruthy : Json → Bool
  | Json.null => false
  | Json.bool b => b
  | Json.num m _ => m != 0
  | Json.str s => s != ""
  | Json.arr l => !l.isEmpty
  | Json.obj l => !l.isEmpty

/-- Python truthiness of `dict.get(k)` (missing key gives `None`, falsy). -/
def pyTruthyO : Option Json → Bool
  | none => false
  | some j => pyTruthy j

/-- Drop trailing zero characters (used for the repr of a decimal). -/
def trimZeros (s : String) : String :=
  String.mk (List.reverse (List.dropWhile (fun c => c = '0') s.data.reverse))

/-- Python `str` of the decimal `m / 10 ^ e`: an `int` prints with no point,
a `float` prints its integer part, a point, and the fractional digits with
trailing zeros removed (at least one digit kept). -/
def decRepr (m : Int) (e : Nat) : String :=
  if e = 0 then toString m
  else
    let sign := if m < 0 then "-" else ""
    let a := m.natAbs
    let p : Nat := 10 ^ e
    let fracRaw := (toString (p + a % p)).drop 1
    let frac := trimZeros fracRaw
    sign ++ toString (a / p) ++ "." ++ (if frac = "" then "0" else frac)

mutual
/-- Python `repr` of a JSON value (strings quoted, containers element-wise).
Only the container cases differ from `pyStr`. -/
def pyRepr : Json → String
  | Json.null => "None"
  | Json.bool true => "True"
  | Json.bool false => "False"
  | Json.num m e => decRepr m e
  | Json.str s => "\x27" ++ s ++ "\x27"
  | Json.arr l => "[" ++ pyReprList l ++ "]"
  | Json.obj l => "\x7b" ++ pyReprFields l ++ "\x7d"

/-- Comma-separated reprs of the elements of a Python list. -/
def pyReprList : List Json → String
  | [] => ""
  | [x] => pyRepr x
  | x :: y :: xs => pyRepr x ++ ", " ++ pyReprList (y :: xs)

/-- Comma-separated reprs of the entries of a Python dict. -/
def pyReprFields : List (String × Json) → String
  | [] => ""
  | [(k, v)] => "\x27" ++ k ++ "\x27: " ++ pyRepr v
  | (k, v) :: y :: xs => "\x27" ++ k ++ "\x27: " ++ pyRepr v ++ ", " ++ pyReprFields (y :: xs)
end

/-- Python `str` of a JSON value, as interpolated by an f-string. -/
def pyStr : Json → String
  | Json.str s => s
  | j => pyRepr j

/-- f-string interpolation of `dict.get(k)`: a missing key interpolates the
literal text `None`. -/
def pyStrO : Option Json → String
  | none => "None"
  | some j => pyStr j

/-- Round `num / den` (`den > 0`) to the nearest integer, ties to even,
as Python float formatting does. -/
def roundHalfEven (num den : Int) : Int :=
  let q := Int.fdiv num den
  let r := num - q * den
  if 2 * r < den then q
  else if 2 * r > den then q + 1
  else if q % 2 = 0 then q else q + 1

/-- The decimal `m / 10 ^ e` scaled to an integer count of hundredths. -/
def scaleTo2 (m : Int) (e : Nat) : Int :=
  if e ≤ 2 then m * (10 : Int) ^ (2 - e)
  else roundHalfEven m ((10 : Int) ^ (e - 2))

/-- Python `format(x, ".2f")` of the decimal `m / 10 ^ e`: always exactly two
digits after the point. -/
def fmt2 (m : Int) (e : Nat) : String :=
  let n := scaleTo2 m e
  let sign := if n < 0 then "-" else ""
  let a := n.natAbs
  let d1 := Char.ofNat (48 + (a % 100) / 10)
  let d2 := Char.ofNat (48 + a % 10)
  sign ++ toString (a / 100) ++ "." ++ String.mk [d1, d2]

/-- The decimal `m / 10 ^ e` scaled to an integer count of tenths. -/
def scaleTo1 (m : Int) (e : Nat) : Int :=
  if e ≤ 1 then m * (10 : Int) ^ (1 - e)
  else roundHalfEven m ((10 : Int) ^ (e - 1))

/-- Python `format(x, ".1f")` of the decimal `m / 10 ^ e`. -/
def fmt1 (m : Int) (e : Nat) : String :=
  let n := scaleTo1 m e
  let sign := if n < 0 then "-" else ""
  let a := n.natAbs
  sign ++ toString (a / 10) ++ "." ++ String.mk [Char.ofNat (48 + a % 10)]

/-- Python `f"{x:.2f}"` on a JSON value: numbers (and bools, which are ints)
format; any other type raises, modelled as `none`. -/
def pyFmt2 : Json → Option String
  | Json.num m e => some (fmt2 m e)
  | Json.bool b => some (fmt2 (if b then 1 else 0) 0)
  | _ => none

/-- Python `f"{d.get(k, 0):.2f}"`: the default `0` formats as `0.00`. -/
def pyFmt2D (o : Option Json) : Option String :=
  pyFmt2 (o.getD (Json.num 0 0))

/-- Python `f"{x:.1f}"` on a JSON value. -/
def pyFmt1 : Json → Option String
  | Json.num m e => some (fmt1 m e)
  | Json.bool b => some (fmt1 (if b then 1 else 0) 0)
  | _ => none

/-- Python `f"{d.get(k, 0):.1f}"`. -/
def pyFmt1D (o : Option Json) : Option String :=
  pyFmt1 (o.getD (Json.num 0 0))

/-- The opening-brace character, written by code point to keep it out of
string literals. -/
def lbrace : Char := Char.ofNat 123

/-- The closing-brace character. -/
def rbrace : Char := Char.ofNat 125

/-- Skip JSON whitespace. -/
def skipWs : List Char → List Char
  | [] => []
  | c :: cs => if c = ' ' ∨ c = '\t' ∨ c = '\n' ∨ c = '\r' then skipWs cs else c :: cs

/-- Parse the body of a JSON string literal after the opening quote, up to and
including the closing quote.  Handles the single-character escapes; a
malformed escape fails, as `json.loads` does. -/
def parseStrBody : Nat → List Char → Option (String × List Char)
  | 0, _ => none
  | _, [] => none
  | fuel + 1, c :: cs =>
    if c = '"' then some ("", cs)
    else if c = '\\' then
      match cs with
      | [] => none
      | e :: cs2 =>
        let esc : Option Char :=
          if e = '"' then some '"'
          else if e = '\\' then some '\\'
          else if e = '/' then some '/'
          else if e = 'n' then some '\n'
          else if e = 't' then some '\t'
          else if e = 'r' then some '\r'
          else if e = 'b' then some (Char.ofNat 8)
          else if e = 'f' then some (Char.ofNat 12)
          else none
        match esc with
        | none => none
        | some ch =>
          match parseStrBody fuel cs2 with
          | none => none
          | some (s, rest) => some (String.mk (ch :: s.data), rest)
    else
      match parseStrBody fuel cs with
      | none => none
      | some (s, rest) => some (String.mk (c :: s.data), rest)

/-- Decimal digits to the natural number they denote. -/
def digitsToNat (ds : List Char) : Nat :=
  ds.foldl (fun a c => a * 10 + (c.toNat - 48)) 0

/-- Parse a JSON number (optional minus, integer digits, optional fractional
part; exponents are not used by any payload of this layer). -/
def parseNum (cs : List Char) : Option (Json × List Char) :=
  let (neg, cs1) :=
    match cs with
    | '-' :: t => (true, t)
    | _ => (false, cs)
  let (ds, cs2) := cs1.span Char.isDigit
  if ds.isEmpty then none
  else
    match cs2 with
    | '.' :: cs3 =>
      let (fs, cs4) := cs3.span Char.isDigit
      if fs.isEmpty then none
      else
        let mval : Int := Int.ofNat (digitsToNat (ds ++ fs))
        some (Json.num (if neg then -mval else mval) fs.length, cs4)
    | _ =>
      let mval : Int := Int.ofNat (digitsToNat ds)
      some (Json.num (if neg then -mval else mval) 0, cs2)

mutual
/-- Parse one JSON value (fuel-indexed recursion; the entry point supplies
fuel larger than the input length, which is always sufficient). -/
def parseVal : Nat → List Char → Option (Json × List Char)
  | 0, _ => none
  | fuel + 1, cs0 =>
    match skipWs cs0 with
    | [] => none
    | c :: cs =>
      if c = '"' then
        match parseStrBody (fuel + 1) cs with
        | none => none
        | some (s, rest) => some (Json.str s, rest)
      else if c = '[' then
        match skipWs cs with
        | ']' :: rest => some (Json.arr [], rest)
        | cs2 =>
          match parseArrItems fuel cs2 with
          | none => none
          | some (l, rest) => some (Json.arr l, rest)
      else if c = lbrace then
        match skipWs cs with
        | d :: rest =>
          if d = rbrace then some (Json.obj [], rest)
          else
            match parseObjItems fuel (d :: rest) with
            | none => none
            | some (l, rest2) => some (Json.obj l, rest2)
        | [] => none
      else if c = 't' then
        match cs with
        | 'r' :: 'u' :: 'e' :: rest => some (Json.bool true, rest)
        | _ => none
      else if c = 'f' then
        match cs with
        | 'a' :: 'l' :: 's' :: 'e' :: rest => some (Json.bool false, rest)
        | _ => none
      else if c = 'n' then
        match cs with
        | 'u' :: 'l' :: 'l' :: rest => some (Json.null, rest)
        | _ => none
      else parseNum (c :: cs)

/-- Parse the comma-separated items of a non-empty JSON array, consuming the
closing bracket. -/
def parseArrItems : Nat → List Char → Option (List Json × List Char)
  | 0, _ => none
  | fuel + 1, cs =>
    match parseVal fuel cs with
    | none => none
    | some (v, rest) =>
      match skipWs rest with
      | ',' :: rest2 =>
        match parseArrItems fuel rest2 with
        | none => none
        | some (l, rest3) => some (v :: l, rest3)
      | ']' :: rest2 => some ([v], rest2)
      | _ => none

/-- Parse the comma-separated entries of a non-empty JSON object, consuming
the closing brace. -/
def parseObjItems : Nat → List Char → Option (List (String × Json) × List Char)
  | 0, _ => none
  | fuel + 1, cs =>
    match skipWs cs with
    | '"' :: cs1 =>
      match parseStrBody (fuel + 1) cs1 with
      | none => none
      | some (k, rest) =>
        match skipWs rest with
        | ':' :: rest1 =>
          match parseVal fuel rest1 with
          | none => none
          | some (v, rest2) =>
            match skipWs rest2 with
            | ',' :: rest3 =>
              match parseObjItems fuel rest3 with
              | none => none
              | some (l, rest4) => some ((k, v) :: l, rest4)
            | d :: rest3 =>
              if d = rbrace then some ([(k, v)], rest3) else none
            | [] => none
        | _ => none
    | _ => none
end

/-- Model of Python `json.loads` restricted to the shapes this layer ever
passes it: `some` on a well-formed document, `none` where `json.loads`
raises. -/
def parseJson (s : String) : Option Json :=
  match parseVal (2 * s.length + 8) s.data with
  | none => none
  | some (v, rest) => if skipWs rest = [] then some v else none

/-- Outcome of one `call_inventory_api` invocation: the value the coroutine
returns, the `logger.error` lines it emitted, and whether an HTTP request was
attempted. -/
structure ApiCall where
  result : Option Json
  errorLog : List String
  requestIssued : Bool

/-- The dictionary `call_inventory_api` builds in its `except` handler. -/
def failureDict (msg : String) : Json :=
  Json.obj [("success", Json.bool false), ("error", Json.str msg)]

/-- `call_inventory_api(endpoint, method, data)`: dispatch on the method,
return the decoded response body verbatim, and convert any fault during the
exchange (`exchange = Except.error msg`) into the failure dictionary, logging
the endpoint and fault detail.  A method outside the four verbs falls off the
`if`/`elif` chain and returns `None` without attempting a request. -/
def call_inventory_api (endpoint : String) (method : String) (data : Option Json)
    (exchange : Except String Json) : ApiCall :=
  if method = "GET" ∨ method = "POST" ∨ method = "PUT" ∨ method = "DELETE" then
    match exchange with
    | Except.ok j => { result := some j, errorLog := [], requestIssued := true }
    | Except.error e =>
      { result := some (failureDict e),
        errorLog := ["API call failed: " ++ endpoint ++ " - " ++ e],
        requestIssued := true }
  else { result := none, errorLog := [], requestIssued := false }

/-- Result of invoking one tool method: the string it returns, the
`ToolError` it raises, or an unhandled Python-level exception. -/
inductive Outcome where
  | ok : String → Outcome
  | toolError : String → Outcome
  | pyError : String → Outcome

/-- True exactly when the outcome is a raised `ToolError`. -/
def Outcome.isToolError : Outcome → Bool
  | Outcome.toolError _ => true
  | _ => false

/-- True exactly when the outcome is a returned string. -/
def Outcome.isOk : Outcome → Bool
  | Outcome.ok _ => true
  | _ => false

/-- `result.get('error', 'Unknown error')` as interpolated into a `ToolError`
message: the `error` field stringified when present, else the fallback. -/
def pyErrText (fs : List (String × Json)) : String :=
  pyStr ((jLookup fs "error").getD (Json.str "Unknown error"))

/-- The shared shape of every tool method after its request is built: call
the API, then `if result.get("success"): <render> else raise ToolError(...)`.
`result.get` on a non-dict value is an unhandled `AttributeError`. -/
def opRun (endpoint method : String) (data : Option Json) (exchange : Except String Json)
    (errPrefix : String) (onSuccess : List (String × Json) → Outcome) : Outcome :=
  match (call_inventory_api endpoint method data exchange).result with
  | none => Outcome.pyError "NoneType object has no attribute get"
  | some (Json.obj fs) =>
    if pyTruthyO (jLookup fs "success") then onSuccess fs
    else Outcome.toolError (errPrefix ++ pyErrText fs)
  | some _ => Outcome.pyError "result object has no attribute get"

/-- A Python float argument, as the exact decimal `m / 10 ^ e`. -/
structure PyFloat where
  m : Int
  e : Nat

/-- `if v:` guard around adding a string-valued optional field. -/
def optStrField (k : String) (v : Option String) : List (String × Json) :=
  match v with
  | some s => if s != "" then [(k, Json.str s)] else []
  | none => []

/-- `if v is not None:` guard around adding a float-valued optional field. -/
def optFloatField (k : String) (v : Option PyFloat) : List (String × Json) :=
  match v with
  | some x => [(k, Json.num x.m x.e)]
  | none => []

/-- `if v is not None:` guard around adding an int-valued optional field. -/
def optIntField (k : String) (v : Option Int) : List (String × Json) :=
  match v with
  | some n => [(k, Json.num n 0)]
  | none => []

/-- `if cost_breakdown:` followed by `json.loads` in a `try`: on a parse
failure the field is simply not added. -/
def costBreakdownField (cb : Option String) : List (String × Json) :=
  match cb with
  | some s =>
    if s != "" then
      match parseJson s with
      | some v => [("costBreakdown", v)]
      | none => []
    else []
  | none => []

/-- The `logger.warning` lines emitted by the cost-breakdown `except` branch. -/
def costBreakdownWarnings (cb : Option String) : List String :=
  match cb with
  | some s =>
    if s != "" then
      match parseJson s with
      | some _ => []
      | none => ["Failed to parse cost_breakdown: " ++ s]
    else []
  | none => []

/-- Pythonic truthiness of an optional string argument. -/
def pyTruthyOS : Option String → Bool
  | none => false
  | some s => s != ""

/-- Fail-propagating map used to model a list comprehension or an accumulating
`for` loop whose body may raise (`none`). -/
def optMapM (f : Json → Option String) : List Json → Option (List String)
  | [] => some []
  | x :: xs =>
    match f x with
    | none => none
    | some s =>
      match optMapM f xs with
      | none => none
      | some rest => some (s :: rest)

/-- Query string built by joining `key=value` pairs with ampersands. -/
def queryString (ps : List (String × String)) : String :=
  String.intercalate "&" (ps.map (fun kv => kv.1 ++ "=" ++ kv.2))

/-- Arguments of `add_product` (`None` marks an omitted optional). -/
structure AddProductArgs where
  name : String
  type : String
  quantity : Int
  price : PyFloat
  sku : Option String
  cost : Option PyFloat
  cost_breakdown : Option String
  description : Option String
  caption : Option String

/-- The `product_data` dictionary `add_product` sends as the POST body. -/
def add_product_body (a : AddProductArgs) : List (String × Json) :=
  [("name", Json.str a.name), ("type", Json.str a.type),
   ("quantity", Json.num a.quantity 0), ("price", Json.num a.price.m a.price.e)]
  ++ optStrField "sku" a.sku
  ++ optFloatField "cost" a.cost
  ++ optStrField "description" a.description
  ++ optStrField "caption" a.caption
  ++ costBreakdownField a.cost_breakdown

/-- The warnings `add_product` logs while building its request. -/
def add_product_warnings (a : AddProductArgs) : List String :=
  costBreakdownWarnings a.cost_breakdown

/-- One entry of the `breakdown_items` comprehension: subscripting, so a
missing key or non-dict item raises (`none`). -/
def renderBreakdownItem (item : Json) : Option String :=
  match item with
  | Json.obj ifs =>
    match jLookup ifs "category", jLookup ifs "amount" with
    | some c, some am => some (pyStr c ++ ": $" ++ pyStr am)
    | _, _ => none
  | _ => none

/-- Success-branch rendering of `add_product`. -/
def add_product_render (a : AddProductArgs) (fs : List (String × Json)) : Outcome :=
  match (jLookup fs "data").getD (Json.obj []) with
  | Json.obj pfs =>
    let bd := jLookup pfs "costBreakdown"
    let breakdown_msg : Option String :=
      if pyTruthyO bd then
        match bd.getD (Json.arr []) with
        | Json.arr items =>
          match optMapM renderBreakdownItem items with
          | some parts => some (" Cost breakdown: " ++ String.intercalate ", " parts ++ ".")
          | none => none
        | _ => none
      else some ""
    match breakdown_msg with
    | none => Outcome.pyError "error while rendering cost breakdown"
    | some bmsg =>
      Outcome.ok ("Successfully added " ++ toString a.quantity ++ " units of \x27" ++ a.name
        ++ "\x27 (SKU: " ++ pyStrO (jLookup pfs "sku") ++ ") to inventory at $"
        ++ decRepr a.price.m a.price.e ++ " per unit." ++ bmsg)
  | _ => Outcome.pyError "data object has no attribute get"

/-- `add_product`: build `product_data`, POST it, and reduce the result. -/
def add_product (a : AddProductArgs) (exchange : Except String Json) : Outcome :=
  opRun "/api/products" "POST" (some (Json.obj (add_product_body a))) exchange
    "Failed to add product: " (add_product_render a)

/-- Arguments of `update_product`. -/
structure UpdateProductArgs where
  product_identifier : String
  name : Option String
  sku : Option String
  type : Option String
  quantity : Option Int
  price : Option PyFloat
  cost : Option PyFloat
  cost_breakdown : Option String
  description : Option String
  caption : Option String

/-- The `update_data` dictionary `update_product` sends as the PUT body. -/
def update_product_body (u : UpdateProductArgs) : List (String × Json) :=
  [("product_identifier", Json.str u.product_identifier)]
  ++ optStrField "name" u.name
  ++ optStrField "sku" u.sku
  ++ optStrField "type" u.type
  ++ optIntField "quantity" u.quantity
  ++ optFloatField "price" u.price
  ++ optFloatField "cost" u.cost
  ++ optStrField "description" u.description
  ++ optStrField "caption" u.caption
  ++ costBreakdownField u.cost_breakdown

/-- The warnings `update_product` logs while building its request. -/
def update_product_warnings (u : UpdateProductArgs) : List String :=
  costBreakdownWarnings u.cost_breakdown

/-- Success-branch rendering of `update_product`. -/
def update_product_render (u : UpdateProductArgs) : Outcome :=
  let fields_updated : List String :=
    (if pyTruthyOS u.name then ["name"] else [])
    ++ (match u.price with
        | some p => ["price ($" ++ decRepr p.m p.e ++ ")"]
        | none => [])
    ++ (match u.cost with
        | some c => ["cost ($" ++ decRepr c.m c.e ++ ")"]
        | none => [])
    ++ (match u.quantity with
        | some q => ["quantity (" ++ toString q ++ ")"]
        | none => [])
  let fields_str :=
    if fields_updated.isEmpty then "product details"
    else String.intercalate ", " fields_updated
  Outcome.ok ("Successfully updated " ++ fields_str ++ " for \x27"
    ++ u.product_identifier ++ "\x27.")

/-- `update_product`: build `update_data`, PUT it, and reduce the result. -/
def update_product (u : UpdateProductArgs) (exchange : Except String Json) : Outcome :=
  opRun ("/api/products/" ++ u.product_identifier) "PUT"
    (some (Json.obj (update_product_body u))) exchange
    "Failed to update product: " (fun _ => update_product_render u)

/-- Arguments of `search_products`. -/
structure SearchArgs where
  search_term : Option String
  type : Option String
  low_stock : Bool

/-- The `params` dictionary of `search_products`, in insertion order. -/
def search_products_params (a : SearchArgs) : List (String × String) :=
  (match a.search_term with
   | some s => if s != "" then [("search", s)] else []
   | none => [])
  ++ (match a.type with
      | some s => if s != "" then [("type", s)] else []
      | none => [])
  ++ (if a.low_stock then [("lowStock", "true")] else [])

/-- The endpoint `search_products` issues its GET against. -/
def search_products_endpoint (a : SearchArgs) : String :=
  let qs := queryString (search_products_params a)
  if qs != "" then "/api/products?" ++ qs else "/api/products"

/-- One preview line of `search_products`. -/
def search_products_line (p : Json) : Option String :=
  match p with
  | Json.obj pfs =>
    some ("- " ++ pyStrO (jLookup pfs "name") ++ " (SKU: " ++ pyStrO (jLookup pfs "sku")
      ++ ", Quantity: " ++ pyStrO (jLookup pfs "quantity")
      ++ ", Price: $" ++ pyStrO (jLookup pfs "price") ++ ")\n")
  | _ => none

/-- Success-branch rendering of `search_products`: empty data gives the fixed
sentence, otherwise the first five items are previewed and a remainder count
is appended when more than five exist. -/
def search_products_render (fs : List (String × Json)) : Outcome :=
  let products := (jLookup fs "data").getD (Json.arr [])
  if !(pyTruthy products) then Outcome.ok "No products found matching your search."
  else
    match products with
    | Json.arr ps =>
      match optMapM search_products_line (ps.take 5) with
      | none => Outcome.pyError "item object has no attribute get"
      | some lines =>
        let response := "Found " ++ toString ps.length ++ " product(s):\n" ++ String.join lines
        Outcome.ok (if ps.length > 5
          then response ++ ("... and " ++ toString (ps.length - 5) ++ " more.")
          else response)
    | _ => Outcome.pyError "data is not a list"

/-- `search_products`. -/
def search_products (a : SearchArgs) (exchange : Except String Json) : Outcome :=
  opRun (search_products_endpoint a) "GET" none exchange
    "Search failed: " search_products_render

/-- Arguments of `list_products`. -/
structure ListArgs where
  type : Option String
  low_stock : Bool

/-- The `params` dictionary of `list_products` (`type` is skipped when it is
falsy or the literal `all`). -/
def list_products_params (a : ListArgs) : List (String × String) :=
  (match a.type with
   | some s => if s != "" ∧ s ≠ "all" then [("type", s)] else []
   | none => [])
  ++ (if a.low_stock then [("lowStock", "true")] else [])

/-- The endpoint `list_products` issues its GET against. -/
def list_products_endpoint (a : ListArgs) : String :=
  let qs := queryString (list_products_params a)
  if qs != "" then "/api/products?" ++ qs else "/api/products"

/-- One preview line of `list_products`. -/
def list_products_line (p : Json) : Option String :=
  match p with
  | Json.obj pfs =>
    some ("- " ++ pyStrO (jLookup pfs "name") ++ " (SKU: " ++ pyStrO (jLookup pfs "sku")
      ++ ", Qty: " ++ pyStrO (jLookup pfs "quantity")
      ++ ", Price: $" ++ pyStrO (jLookup pfs "price") ++ ")\n")
  | _ => none

/-- Success-branch rendering of `list_products`. -/
def list_products_render (fs : List (String × Json)) : Outcome :=
  let products := (jLookup fs "data").getD (Json.arr [])
  if !(pyTruthy products) then Outcome.ok "No products found."
  else
    match products with
    | Json.arr ps =>
      match optMapM list_products_line (ps.take 5) with
      | none => Outcome.pyError "item object has no attribute get"
      | some lines =>
        let response := "Found " ++ toString ps.length ++ " product(s):\n" ++ String.join lines
        Outcome.ok (if ps.length > 5
          then response ++ ("... and " ++ toString (ps.length - 5) ++ " more.")
          else response)
    | _ => Outcome.pyError "data is not a list"

/-- `list_products`. -/
def list_products (a : ListArgs) (exchange : Except String Json) : Outcome :=
  opRun (list_products_endpoint a) "GET" none exchange
    "Failed to list products: " list_products_render

/-- Success-branch rendering of `get_product`. -/
def get_product_render (fs : List (String × Json)) : Outcome :=
  match (jLookup fs "data").getD (Json.obj []) with
  | Json.obj pfs =>
    Outcome.ok ("Product: " ++ pyStrO (jLookup pfs "name")
      ++ ", SKU: " ++ pyStrO (jLookup pfs "sku")
      ++ ", Type: " ++ pyStrO (jLookup pfs "type")
      ++ ", Quantity: " ++ pyStrO (jLookup pfs "quantity")
      ++ ", Price: $" ++ pyStrO (jLookup pfs "price")
      ++ ", Cost: $" ++ pyStr ((jLookup pfs "cost").getD (Json.num 0 0)))
  | _ => Outcome.pyError "data object has no attribute get"

/-- `get_product`. -/
def get_product (product_identifier : String) (exchange : Except String Json) : Outcome :=
  opRun ("/api/products/" ++ product_identifier) "GET" none exchange
    "Product not found: " get_product_render

/-- Arguments of `record_sale`. -/
structure RecordSaleArgs where
  product_name : String
  quantity : Int
  sell_price : Option PyFloat

/-- The `sale_data` dictionary `record_sale` sends as the POST body. -/
def record_sale_body (a : RecordSaleArgs) : List (String × Json) :=
  [("productName", Json.str a.product_name), ("quantity", Json.num a.quantity 0)]
  ++ optFloatField "sellPrice" a.sell_price

/-- Success-branch rendering of `record_sale`: the remote-computed totals are
formatted with two decimals, defaulting to `0` when absent. -/
def record_sale_render (a : RecordSaleArgs) (fs : List (String × Json)) : Outcome :=
  match (jLookup fs "data").getD (Json.obj []) with
  | Json.obj sfs =>
    match pyFmt2D (jLookup sfs "totalSaleValue"), pyFmt2D (jLookup sfs "profit") with
    | some t, some pr =>
      Outcome.ok ("Sale recorded! Sold " ++ toString a.quantity ++ " units of "
        ++ a.product_name ++ ". Total: $" ++ t ++ ", Profit: $" ++ pr)
    | _, _ => Outcome.pyError "unsupported format operand"
  | _ => Outcome.pyError "data object has no attribute get"

/-- `record_sale`. -/
def record_sale (a : RecordSaleArgs) (exchange : Except String Json) : Outcome :=
  opRun "/api/sales" "POST" (some (Json.obj (record_sale_body a))) exchange
    "Failed to record sale: " (record_sale_render a)

/-- Arguments of `get_sales_history`. -/
structure SalesHistoryArgs where
  product_name : Option String
  start_date : Option String
  end_date : Option String
  limit : Int

/-- The `params` dictionary of `get_sales_history` (`limit` always first). -/
def get_sales_history_params (a : SalesHistoryArgs) : List (String × String) :=
  [("limit", toString a.limit)]
  ++ (match a.product_name with
      | some s => if s != "" then [("product", s)] else []
      | none => [])
  ++ (match a.start_date with
      | some s => if s != "" then [("startDate", s)] else []
      | none => [])
  ++ (match a.end_date with
      | some s => if s != "" then [("endDate", s)] else []
      | none => [])

/-- The nested defensive unwrap of a sale's product reference: only a dict
`productId` with a `name` field escapes the literal `Unknown`. -/
def sale_product_name (sfs : List (String × Json)) : String :=
  match jLookup sfs "productId" with
  | some (Json.obj pfs) => pyStr ((jLookup pfs "name").getD (Json.str "Unknown"))
  | _ => "Unknown"

/-- One preview line of `get_sales_history`. -/
def sales_history_line (sale : Json) : Option String :=
  match sale with
  | Json.obj sfs =>
    match pyFmt2D (jLookup sfs "totalSaleValue"), pyFmt2D (jLookup sfs "profit") with
    | some t, some pr =>
      some ("- " ++ sale_product_name sfs ++ " (" ++ pyStrO (jLookup sfs "quantity")
        ++ " units, $" ++ t ++ ", Profit: $" ++ pr ++ ")\n")
    | _, _ => none
  | _ => none

/-- Success-branch rendering of `get_sales_history`: the first five sales are
previewed and no remainder count is appended. -/
def get_sales_history_render (fs : List (String × Json)) : Outcome :=
  let sales := (jLookup fs "data").getD (Json.arr [])
  if !(pyTruthy sales) then Outcome.ok "No sales found for the specified criteria."
  else
    match sales with
    | Json.arr ss =>
      match optMapM sales_history_line (ss.take 5) with
      | none => Outcome.pyError "sale object has no attribute get"
      | some lines =>
        Outcome.ok ("Found " ++ toString ss.length ++ " sale(s):\n" ++ String.join lines)
    | _ => Outcome.pyError "data is not a list"

/-- `get_sales_history`. -/
def get_sales_history (a : SalesHistoryArgs) (exchange : Except String Json) : Outcome :=
  opRun ("/api/sales?" ++ queryString (get_sales_history_params a)) "GET" none exchange
    "Failed to get sales history: " get_sales_history_render

/-- One line of `get_recent_sales`. -/
def recent_sales_line (sale : Json) : Option String :=
  match sale with
  | Json.obj sfs =>
    match pyFmt2D (jLookup sfs "totalSaleValue") with
    | some t =>
      some ("- " ++ sale_product_name sfs ++ " ("
        ++ pyStrO (jLookup sfs "quantity") ++ " units, $" ++ t ++ ")\n")
    | none => none
  | _ => none

/-- Success-branch rendering of `get_recent_sales`: every returned sale is
rendered (the loop is not capped) and no remainder count exists. -/
def get_recent_sales_render (fs : List (String × Json)) : Outcome :=
  let sales := (jLookup fs "data").getD (Json.arr [])
  if !(pyTruthy sales) then Outcome.ok "No sales recorded yet."
  else
    match sales with
    | Json.arr ss =>
      match optMapM recent_sales_line ss with
      | none => Outcome.pyError "sale object has no attribute get"
      | some lines =>
        Outcome.ok ("Recent " ++ toString ss.length ++ " sale(s):\n" ++ String.join lines)
    | _ => Outcome.pyError "data is not a list"

/-- `get_recent_sales`. -/
def get_recent_sales (limit : Int) (exchange : Except String Json) : Outcome :=
  opRun ("/api/sales?limit=" ++ toString limit) "GET" none exchange
    "Failed to get sales: " get_recent_sales_render

/-- One preview line of `get_monthly_profits`. -/
def monthly_profits_line (md : Json) : Option String :=
  match md with
  | Json.obj mfs =>
    match pyFmt2D (jLookup mfs "profit") with
    | some pr =>
      some ("- " ++ pyStr ((jLookup mfs "month").getD (Json.str "Unknown")) ++ ": $" ++ pr ++ "\n")
    | none => none
  | _ => none

/-- Success-branch rendering of `get_monthly_profits`: the first five months
are previewed and no remainder count is appended. -/
def get_monthly_profits_render (months : Int) (fs : List (String × Json)) : Outcome :=
  let data := (jLookup fs "data").getD (Json.arr [])
  if !(pyTruthy data) then Outcome.ok "No profit data available."
  else
    match data with
    | Json.arr ds =>
      match optMapM monthly_profits_line (ds.take 5) with
      | none => Outcome.pyError "month object has no attribute get"
      | some lines =>
        Outcome.ok ("Monthly profits (last " ++ toString months ++ " months):\n"
          ++ String.join lines)
    | _ => Outcome.pyError "data is not a list"

/-- `get_monthly_profits`. -/
def get_monthly_profits (months : Int) (exchange : Except String Json) : Outcome :=
  opRun ("/api/analytics/monthly-profits?months=" ++ toString months) "GET" none exchange
    "Failed to get monthly profits: " (get_monthly_profits_render months)

/-- One line of `get_top_products`, numbered from 1 by `enumerate`. -/
def top_products_line (i : Nat) (p : Json) : Option String :=
  match p with
  | Json.obj pfs =>
    match pyFmt2D (jLookup pfs "profit") with
    | some pr =>
      some (toString i ++ ". " ++ pyStr ((jLookup pfs "name").getD (Json.str "Unknown"))
        ++ " (SKU: " ++ pyStr ((jLookup pfs "sku").getD (Json.str "N/A"))
        ++ ", Profit: $" ++ pr ++ ")\n")
    | none => none
  | _ => none

/-- The enumerated loop of `get_top_products`: every item is rendered. -/
def top_products_lines (i : Nat) : List Json → Option (List String)
  | [] => some []
  | p :: ps =>
    match top_products_line i p with
    | none => none
    | some s =>
      match top_products_lines (i + 1) ps with
      | none => none
      | some rest => some (s :: rest)

/-- Success-branch rendering of `get_top_products`: all ranked products are
rendered (no preview cap, no remainder count); the zero-item sentence names
the period. -/
def get_top_products_render (period sort_by : String) (fs : List (String × Json)) : Outcome :=
  let products := (jLookup fs "data").getD (Json.arr [])
  if !(pyTruthy products) then Outcome.ok ("No sales data available for " ++ period ++ ".")
  else
    match products with
    | Json.arr ps =>
      match top_products_lines 1 ps with
      | none => Outcome.pyError "item object has no attribute get"
      | some lines =>
        Outcome.ok ("Top " ++ toString ps.length ++ " product(s) by " ++ sort_by
          ++ " for " ++ period ++ ":\n" ++ String.join lines)
    | _ => Outcome.pyError "data is not a list"

/-- `get_top_products`. -/
def get_top_products (period sort_by : String) (limit : Int)
    (exchange : Except String Json) : Outcome :=
  opRun ("/api/analytics/top-products?period=" ++ period ++ "&sortBy=" ++ sort_by
      ++ "&limit=" ++ toString limit) "GET" none exchange
    "Failed to get top products: " (get_top_products_render period sort_by)

/-- One preview line of `get_low_stock_alerts`. -/
def low_stock_line (p : Json) : Option String :=
  match p with
  | Json.obj pfs =>
    some ("- " ++ pyStrO (jLookup pfs "name") ++ " (Quantity: " ++ pyStrO (jLookup pfs "quantity")
      ++ ", SKU: " ++ pyStrO (jLookup pfs "sku") ++ ")\n")
  | _ => none

/-- Success-branch rendering of `get_low_stock_alerts`: first five previewed,
remainder count appended past the cap. -/
def get_low_stock_alerts_render (fs : List (String × Json)) : Outcome :=
  let products := (jLookup fs "data").getD (Json.arr [])
  if !(pyTruthy products) then Outcome.ok "No low stock alerts. All products are well stocked."
  else
    match products with
    | Json.arr ps =>
      match optMapM low_stock_line (ps.take 5) with
      | none => Outcome.pyError "item object has no attribute get"
      | some lines =>
        let response := toString ps.length ++ " low stock alert(s):\n" ++ String.join lines
        Outcome.ok (if ps.length > 5
          then response ++ ("... and " ++ toString (ps.length - 5) ++ " more items need restocking.")
          else response)
    | _ => Outcome.pyError "data is not a list"

/-- `get_low_stock_alerts`. -/
def get_low_stock_alerts (threshold : Int) (exchange : Except String Json) : Outcome :=
  opRun ("/api/analytics/low-stock?threshold=" ++ toString threshold) "GET" none exchange
    "Failed to get alerts: " get_low_stock_alerts_render

/-- Success-branch rendering of `get_profit_stats`: four currency figures,
each two-decimal formatted with a zero default. -/
def get_profit_stats_render (period : String) (fs : List (String × Json)) : Outcome :=
  match (jLookup fs "data").getD (Json.obj []) with
  | Json.obj dfs =>
    match pyFmt2D (jLookup dfs "totalProfit"), pyFmt2D (jLookup dfs "totalRevenue"),
          pyFmt2D (jLookup dfs "totalCost"), pyFmt2D (jLookup dfs "averageProfit") with
    | some tp, some tr, some tc, some ap =>
      Outcome.ok ("Profit stats for " ++ period ++ ": Total profit: $" ++ tp
        ++ ", Revenue: $" ++ tr ++ ", Cost: $" ++ tc
        ++ ", Average profit per sale: $" ++ ap)
    | _, _, _, _ => Outcome.pyError "unsupported format operand"
  | _ => Outcome.pyError "data object has no attribute get"

/-- `get_profit_stats`. -/
def get_profit_stats (period : String) (exchange : Except String Json) : Outcome :=
  opRun ("/api/analytics/profit?period=" ++ period) "GET" none exchange
    "Failed to get profit stats: " (get_profit_stats_render period)

/-- Whether `needle` occurs as a contiguous substring of the character list. -/
def listHasInfix (needle : List Char) : List Char → Bool
  | [] => needle.isEmpty
  | c :: t => needle.isPrefixOf (c :: t) || listHasInfix needle t

/-- Whether `needle` occurs as a contiguous substring of `hay`. -/
def strContainsSub (hay needle : String) : Bool :=
  listHasInfix needle.data hay.data

/-- Whether `p` is a leading substring of `s`. -/
def strStartsWith (s p : String) : Bool :=
  p.data.isPrefixOf s.data

/-- Whether `p` is a trailing substring of `s`. -/
def strEndsWith (s p : String) : Bool :=
  p.data.reverse.isPrefixOf s.data.reverse

/-- Count of newline characters, used to count rendered preview lines. -/
def countNL (s : String) : Nat :=
  s.data.countP (fun c => c = '\n')

/-- The string returned by an `ok` outcome. -/
def Outcome.okStr : Outcome → Option String
  | Outcome.ok s => some s
  | _ => none

section Lemmas

/-- Looking a key up in a concatenation first consults the later bindings. -/
theorem jLookup_append_right (l1 l2 : List (String × Json)) (k : String) (v : Json)
    (h : jLookup l2 k = some v) : jLookup (l1 ++ l2) k = some v := by
  induction l1 with
  | nil => exact h
  | cons hd tl ih =>
    obtain ⟨k1, v1⟩ := hd
    show (match jLookup (tl ++ l2) k with
      | some v2 => some v2
      | none => if k1 = k then some v1 else none) = some v
    rw [ih]

/-- A successful `optMapM` preserves the length of the list. -/
theorem optMapM_length (f : Json → Option String) (l : List Json) (ls : List String)
    (h : optMapM f l = some ls) : ls.length = l.length := by
  induction l generalizing ls with
  | nil => simp only [optMapM] at h; cases h; rfl
  | cons x xs ih =>
    simp only [optMapM] at h
    cases hf : f x with
    | none => rw [hf] at h; cases h
    | some s =>
      rw [hf] at h
      cases hr : optMapM f xs with
      | none => rw [hr] at h; cases h
      | some rest =>
        rw [hr] at h
        cases h
        simp [ih rest hr]

/-- A successful enumerated render preserves the length of the list. -/
theorem top_products_lines_length (i : Nat) (l : List Json) (ls : List String)
    (h : top_products_lines i l = some ls) : ls.length = l.length := by
  induction l generalizing i ls with
  | nil => simp only [top_products_lines] at h; cases h; rfl
  | cons x xs ih =>
    simp only [top_products_lines] at h
    cases hf : top_products_line i x with
    | none => rw [hf] at h; cases h
    | some s =>
      rw [hf] at h
      cases hr : top_products_lines (i + 1) xs with
      | none => rw [hr] at h; cases h
      | some rest =>
        rw [hr] at h
        cases h
        simp [ih (i + 1) rest hr]

/-- A string that decomposes as `p ++ r` at the character level starts
with `p`. -/
theorem strStartsWith_of_data (s p r : String) (h : s.data = p.data ++ r.data) :
    strStartsWith s p = true := by
  unfold strStartsWith
  rw [h, List.isPrefixOf_iff_prefix]
  exact List.prefix_append _ _

end Lemmas

/-- C1: on any transport-level fault during the exchange, `call_inventory_api`
catches the exception, logs the endpoint and the fault detail at error
severity, and returns the dictionary `{"success": False, "error": str(e)}`;
nothing propagates to the caller. -/
theorem c1_transport_fault_returns_failure (endpoint method e : String) (data : Option Json)
    (hm : method = "GET" ∨ method = "POST" ∨ method = "PUT" ∨ method = "DELETE") :
    (call_inventory_api endpoint method data (Except.error e)).result
        = some (Json.obj [("success", Json.bool false), ("error", Json.str e)])
    ∧ (call_inventory_api endpoint method data (Except.error e)).errorLog
        = ["API call failed: " ++ endpoint ++ " - " ++ e] := by
  rcases hm with h | h | h | h <;> subst h <;> exact ⟨rfl, rfl⟩

/-- C1 witness: a concrete connection failure on the product-creation
endpoint yields the failure dictionary and the error-severity log line. -/
theorem c1_transport_fault_returns_failure_witness :
    (call_inventory_api "/api/products" "POST" none (Except.error "Connection refused")).result
        = some (Json.obj [("success", Json.bool false), ("error", Json.str "Connection refused")])
    ∧ (call_inventory_api "/api/products" "POST" none (Except.error "Connection refused")).errorLog
        = ["API call failed: " ++ "/api/products" ++ " - " ++ "Connection refused"] :=
  c1_transport_fault_returns_failure "/api/products" "POST" "Connection refused" none
    (Or.inr (Or.inl rfl))

/-- C10: for the four supported verbs `call_inventory_api` returns the decoded
response body, or the failure dictionary on a fault, and a request is
attempted; for any other method string it returns `None` and no request is
issued. -/
theorem c10_method_gate (endpoint method : String) (data : Option Json)
    (exchange : Except String Json) :
    ((method = "GET" ∨ method = "POST" ∨ method = "PUT" ∨ method = "DELETE") →
      (call_inventory_api endpoint method data exchange).result
          = some (match exchange with
                  | Except.ok j => j
                  | Except.error e => failureDict e)
        ∧ (call_inventory_api endpoint method data exchange).requestIssued = true)
    ∧ (¬ (method = "GET" ∨ method = "POST" ∨ method = "PUT" ∨ method = "DELETE") →
      (call_inventory_api endpoint method data exchange).result = none
        ∧ (call_inventory_api endpoint method data exchange).requestIssued = false) := by
  constructor
  · intro hm
    rcases hm with h | h | h | h <;> subst h <;> cases exchange <;> exact ⟨rfl, rfl⟩
  · intro hm
    unfold call_inventory_api
    rw [if_neg hm]
    exact ⟨rfl, rfl⟩

/-- C10 witness: an unsupported verb returns `None` without any request. -/
theorem c10_method_gate_witness :
    (call_inventory_api "/api/products" "PATCH" none (Except.ok Json.null)).result = none
    ∧ (call_inventory_api "/api/products" "PATCH" none (Except.ok Json.null)).requestIssued
        = false :=
  (c10_method_gate "/api/products" "PATCH" none (Except.ok Json.null)).2 (by decide)

/-- C8: `get_profit_stats("month")` on the documented payload renders a string
containing `$6840.20`, `$15420.50`, `$8580.30` and `$163.00`. -/
theorem c8_profit_stats_round_trip :
    get_profit_stats "month" (Except.ok (Json.obj [("success", Json.bool true),
      ("data", Json.obj [("totalProfit", Json.num 684020 2), ("totalRevenue", Json.num 1542050 2),
        ("totalCost", Json.num 858030 2), ("averageProfit", Json.num 1630 1)])]))
      = Outcome.ok "Profit stats for month: Total profit: $6840.20, Revenue: $15420.50, Cost: $8580.30, Average profit per sale: $163.00"
    ∧ strContainsSub "Profit stats for month: Total profit: $6840.20, Revenue: $15420.50, Cost: $8580.30, Average profit per sale: $163.00" "$6840.20" = true
    ∧ strContainsSub "Profit stats for month: Total profit: $6840.20, Revenue: $15420.50, Cost: $8580.30, Average profit per sale: $163.00" "$15420.50" = true
    ∧ strContainsSub "Profit stats for month: Total profit: $6840.20, Revenue: $15420.50, Cost: $8580.30, Average profit per sale: $163.00" "$8580.30" = true
    ∧ strContainsSub "Profit stats for month: Total profit: $6840.20, Revenue: $15420.50, Cost: $8580.30, Average profit per sale: $163.00" "$163.00" = true :=
  ⟨rfl, rfl, rfl, rfl, rfl⟩

/-- C7: when the cost-breakdown text parses, both create and update forward
the parsed value as the `costBreakdown` field of the outgoing body,
unchanged — so every amount and the order of entries are exactly those of
the input text. -/
theorem c7_breakdown_forwarded_verbatim (a : AddProductArgs) (u : UpdateProductArgs)
    (s : String) (v : Json) (hp : parseJson s = some v)
    (ha : a.cost_breakdown = some s) (hu : u.cost_breakdown = some s) :
    jLookup (add_product_body a) "costBreakdown" = some v
    ∧ jLookup (update_product_body u) "costBreakdown" = some v := by
  have hne : (s != "") = true := by
    rcases eq_or_ne s "" with h | h
    · subst h
      rw [show parseJson "" = none from rfl] at hp
      cases hp
    · exact bne_iff_ne.mpr h
  have hcb : jLookup (costBreakdownField (some s)) "costBreakdown" = some v := by
    show jLookup (if (s != "") = true then
      match parseJson s with
      | some v => [("costBreakdown", v)]
      | none => []
      else []) "costBreakdown" = some v
    rw [if_pos hne, hp]
    rfl
  constructor
  · unfold add_product_body
    apply jLookup_append_right
    rw [ha]
    exact hcb
  · unfold update_product_body
    apply jLookup_append_right
    rw [hu]
    exact hcb

/-- C7 witness: a two-entry breakdown text parses and is forwarded with both
amounts and their order intact in both request bodies. -/
theorem c7_breakdown_forwarded_verbatim_witness :
    jLookup (add_product_body ⟨"Bed Cover", "bed-covers", 5, ⟨50, 0⟩, none, some ⟨305, 1⟩,
        some "[\x7b\"category\":\"Material\",\"amount\":20\x7d,\x7b\"category\":\"Embroidery\",\"amount\":10.5\x7d]",
        none, none⟩) "costBreakdown"
      = some (Json.arr [Json.obj [("category", Json.str "Material"), ("amount", Json.num 20 0)],
          Json.obj [("category", Json.str "Embroidery"), ("amount", Json.num 105 1)]])
    ∧ jLookup (update_product_body ⟨"BC-001", none, none, none, none, none, none,
        some "[\x7b\"category\":\"Material\",\"amount\":20\x7d,\x7b\"category\":\"Embroidery\",\"amount\":10.5\x7d]",
        none, none⟩) "costBreakdown"
      = some (Json.arr [Json.obj [("category", Json.str "Material"), ("amount", Json.num 20 0)],
          Json.obj [("category", Json.str "Embroidery"), ("amount", Json.num 105 1)]]) :=
  c7_breakdown_forwarded_verbatim _ _
    "[\x7b\"category\":\"Material\",\"amount\":20\x7d,\x7b\"category\":\"Embroidery\",\"amount\":10.5\x7d]"
    (Json.arr [Json.obj [("category", Json.str "Material"), ("amount", Json.num 20 0)],
      Json.obj [("category", Json.str "Embroidery"), ("amount", Json.num 105 1)]])
    rfl rfl rfl

/-- A rendered line that begins with a given prefix still does after more
text is appended. -/
theorem strStartsWith_append_right (s t p : String) (h : strStartsWith s p = true) :
    strStartsWith (s ++ t) p = true := by
  unfold strStartsWith at *
  rw [String.data_append]
  rw [List.isPrefixOf_iff_prefix] at *
  exact h.trans (List.prefix_append _ _)

/-- C9: if a sale's `productId` is absent or not a dict of the expected
shape, the defensive unwrap yields the literal `Unknown`, and the preview
lines of both sales renderers begin with `- Unknown (` instead of the whole
render failing. -/
theorem c9_missing_product_renders_unknown (sale : Json) (sfs : List (String × Json))
    (hs : sale = Json.obj sfs)
    (hnd : ∀ pfs, jLookup sfs "productId" ≠ some (Json.obj pfs)) :
    sale_product_name sfs = "Unknown"
    ∧ (∀ out, sales_history_line sale = some out → strStartsWith out "- Unknown (" = true)
    ∧ (∀ out, recent_sales_line sale = some out → strStartsWith out "- Unknown (" = true) := by
  have hname : sale_product_name sfs = "Unknown" := by
    unfold sale_product_name
    cases h : jLookup sfs "productId" with
    | none => rfl
    | some j =>
      cases j with
      | obj pfs => exact absurd h (hnd pfs)
      | null => rfl
      | bool b => rfl
      | num m e => rfl
      | str s2 => rfl
      | arr l => rfl
  subst hs
  refine ⟨hname, ?_, ?_⟩
  · intro out hout
    unfold sales_history_line at hout
    simp only [hname] at hout
    cases h1 : pyFmt2D (jLookup sfs "totalSaleValue") with
    | none => rw [h1] at hout; cases hout
    | some t =>
      cases h2 : pyFmt2D (jLookup sfs "profit") with
      | none => rw [h1, h2] at hout; cases hout
      | some pr =>
        rw [h1, h2] at hout
        injection hout with hout
        subst hout
        apply strStartsWith_append_right
        apply strStartsWith_append_right
        apply strStartsWith_append_right
        apply strStartsWith_append_right
        apply strStartsWith_append_right
        apply strStartsWith_append_right
        rfl
  · intro out hout
    unfold recent_sales_line at hout
    simp only [hname] at hout
    cases h1 : pyFmt2D (jLookup sfs "totalSaleValue") with
    | none => rw [h1] at hout; cases hout
    | some t =>
      rw [h1] at hout
      injection hout with hout
      subst hout
      apply strStartsWith_append_right
      apply strStartsWith_append_right
      apply strStartsWith_append_right
      apply strStartsWith_append_right
      rfl

/-- C9 witness: a sale whose `productId` is a bare string id renders the
product name as `Unknown`. -/
theorem c9_missing_product_renders_unknown_witness :
    sale_product_name [("productId", Json.str "12345"), ("quantity", Json.num 2 0)]
      = "Unknown" :=
  (c9_missing_product_renders_unknown
    (Json.obj [("productId", Json.str "12345"), ("quantity", Json.num 2 0)])
    [("productId", Json.str "12345"), ("quantity", Json.num 2 0)] rfl
    (fun pfs h => by simp [jLookup] at h)).1

/-- The success-branch render of `add_product` is never a `ToolError`. -/
theorem add_product_render_not_toolError (a : AddProductArgs) (fs : List (String × Json)) :
    Outcome.isToolError (add_product_render a fs) = false := by
  unfold add_product_render
  split
  · dsimp only
    split <;> rfl
  · rfl

/-- The success-branch render of `search_products` is never a `ToolError`. -/
theorem search_products_render_not_toolError (fs : List (String × Json)) :
    Outcome.isToolError (search_products_render fs) = false := by
  unfold search_products_render
  dsimp only
  split
  · rfl
  · split
    · split <;> rfl
    · rfl

/-- C2 (amended): for a JSON-object payload, `add_product` and
`search_products` raise a `ToolError` exactly when the `success` field is
absent or Python-falsy (a truthy non-boolean value takes the success path);
the raised message embeds the payload's `error` field stringified when
present and the text `Unknown error` when absent. -/
theorem c2_success_flag_governs_toolerror (a : AddProductArgs) (q : SearchArgs)
    (fs : List (String × Json)) :
    (Outcome.isToolError (add_product a (Except.ok (Json.obj fs))) = true
      ↔ pyTruthyO (jLookup fs "success") = false)
    ∧ (pyTruthyO (jLookup fs "success") = false →
        add_product a (Except.ok (Json.obj fs))
          = Outcome.toolError ("Failed to add product: " ++ pyErrText fs))
    ∧ (Outcome.isToolError (search_products q (Except.ok (Json.obj fs))) = true
      ↔ pyTruthyO (jLookup fs "success") = false)
    ∧ (pyTruthyO (jLookup fs "success") = false →
        search_products q (Except.ok (Json.obj fs))
          = Outcome.toolError ("Search failed: " ++ pyErrText fs))
    ∧ (jLookup fs "error" = none → pyErrText fs = "Unknown error")
    ∧ (∀ e, jLookup fs "error" = some (Json.str e) → pyErrText fs = e) := by
  have hadd : add_product a (Except.ok (Json.obj fs))
      = if pyTruthyO (jLookup fs "success") then add_product_render a fs
        else Outcome.toolError ("Failed to add product: " ++ pyErrText fs) := rfl
  have hsearch : search_products q (Except.ok (Json.obj fs))
      = if pyTruthyO (jLookup fs "success") then search_products_render fs
        else Outcome.toolError ("Search failed: " ++ pyErrText fs) := rfl
  refine ⟨?_, ?_, ?_, ?_, ?_, ?_⟩
  · rw [hadd]
    cases h : pyTruthyO (jLookup fs "success") with
    | true => simp [add_product_render_not_toolError]
    | false => simp [Outcome.isToolError]
  · intro h
    rw [hadd, h]
    rfl
  · rw [hsearch]
    cases h : pyTruthyO (jLookup fs "success") with
    | true => simp [search_products_render_not_toolError]
    | false => simp [Outcome.isToolError]
  · intro h
    rw [hsearch, h]
    rfl
  · intro h
    unfold pyErrText
    rw [h]
    rfl
  · intro e h
    unfold pyErrText
    rw [h]
    rfl

/-- C2 witness: a payload whose `success` is `False` and whose `error` is
`boom` makes `add_product` raise. -/
theorem c2_success_flag_governs_toolerror_witness :
    Outcome.isToolError (add_product ⟨"Towel", "towels", 1, ⟨15, 0⟩, none, none, none, none, none⟩
      (Except.ok (Json.obj [("success", Json.bool false), ("error", Json.str "boom")]))) = true :=
  (c2_success_flag_governs_toolerror ⟨"Towel", "towels", 1, ⟨15, 0⟩, none, none, none, none, none⟩
    ⟨none, none, false⟩ [("success", Json.bool false), ("error", Json.str "boom")]).1.mpr rfl

/-- C2 counterexample: on the payload whose `success` field holds the
malformed truthy value `"no"` (neither absent nor `false` nor `true`), the
claim demands a `ToolError`, but `add_product` takes the success path and
returns a rendered string. -/
theorem c2_counterexample_malformed_success_is_accepted :
    jLookup [("success", Json.str "no")] "success" = some (Json.str "no")
    ∧ Outcome.isToolError (add_product ⟨"Towel", "towels", 1, ⟨15, 0⟩, none, none, none, none, none⟩
        (Except.ok (Json.obj [("success", Json.str "no")]))) = false
    ∧ Outcome.isOk (add_product ⟨"Towel", "towels", 1, ⟨15, 0⟩, none, none, none, none, none⟩
        (Except.ok (Json.obj [("success", Json.str "no")]))) = true :=
  ⟨rfl, rfl, rfl⟩

/-- A digit value below ten maps to a decimal digit character. -/
theorem digitChar_isDigit (n : Nat) (h : n < 10) : (Char.ofNat (48 + n)).isDigit = true := by
  interval_cases n <;> decide

/-- The two-decimal formatter always produces a string ending in a point
followed by exactly two digit characters. -/
theorem fmt2_two_decimals (m : Int) (e : Nat) :
    ∃ x c1 c2, fmt2 m e = (x ++ ".") ++ String.mk [c1, c2]
      ∧ c1.isDigit = true ∧ c2.isDigit = true := by
  refine ⟨(if scaleTo2 m e < 0 then "-" else "") ++ toString ((scaleTo2 m e).natAbs / 100),
    Char.ofNat (48 + ((scaleTo2 m e).natAbs % 100) / 10),
    Char.ofNat (48 + (scaleTo2 m e).natAbs % 10), rfl, ?_, ?_⟩
  · exact digitChar_isDigit _ (by omega)
  · exact digitChar_isDigit _ (by omega)

/-- C4 (amended): in `record_sale` the remote-computed totals are rendered
through the two-decimal currency formatter, with a missing field defaulting
to `$0.00`; the formatter always emits exactly two digits after the point.
(The raw interpolations of `search_products`, `list_products`, `add_product`
and `get_product` are exempt — see the counterexample.) -/
theorem c4_record_sale_two_decimal_currency (a : RecordSaleArgs)
    (fs sfs : List (String × Json))
    (hsucc : pyTruthyO (jLookup fs "success") = true)
    (hdata : jLookup fs "data" = some (Json.obj sfs)) :
    (jLookup sfs "totalSaleValue" = none → jLookup sfs "profit" = none →
      record_sale a (Except.ok (Json.obj fs))
        = Outcome.ok ("Sale recorded! Sold " ++ toString a.quantity ++ " units of "
            ++ a.product_name ++ ". Total: $" ++ "0.00" ++ ", Profit: $" ++ "0.00"))
    ∧ (∀ m1 e1 m2 e2, jLookup sfs "totalSaleValue" = some (Json.num m1 e1) →
        jLookup sfs "profit" = some (Json.num m2 e2) →
        record_sale a (Except.ok (Json.obj fs))
          = Outcome.ok ("Sale recorded! Sold " ++ toString a.quantity ++ " units of "
              ++ a.product_name ++ ". Total: $" ++ fmt2 m1 e1 ++ ", Profit: $" ++ fmt2 m2 e2))
    ∧ (∀ m e, ∃ x c1 c2, fmt2 m e = (x ++ ".") ++ String.mk [c1, c2]
        ∧ c1.isDigit = true ∧ c2.isDigit = true) := by
  have hrun : record_sale a (Except.ok (Json.obj fs))
      = if pyTruthyO (jLookup fs "success") then record_sale_render a fs
        else Outcome.toolError ("Failed to record sale: " ++ pyErrText fs) := rfl
  have hrender : record_sale a (Except.ok (Json.obj fs)) = record_sale_render a fs := by
    rw [hrun, hsucc]
    rfl
  refine ⟨?_, ?_, fun m e => fmt2_two_decimals m e⟩
  · intro ht hp
    rw [hrender]
    unfold record_sale_render
    rw [hdata]
    simp only [Option.getD_some]
    rw [ht, hp]
    rfl
  · intro m1 e1 m2 e2 ht hp
    rw [hrender]
    unfold record_sale_render
    rw [hdata]
    simp only [Option.getD_some]
    rw [ht, hp]
    rfl

/-- C4 witness: a successful sale payload with both totals absent renders
both currency figures as `$0.00`. -/
theorem c4_record_sale_two_decimal_currency_witness :
    record_sale ⟨"BC-001", 2, none⟩ (Except.ok (Json.obj [("success", Json.bool true),
        ("data", Json.obj [])]))
      = Outcome.ok ("Sale recorded! Sold " ++ toString (2 : Int) ++ " units of "
          ++ "BC-001" ++ ". Total: $" ++ "0.00" ++ ", Profit: $" ++ "0.00") :=
  (c4_record_sale_two_decimal_currency ⟨"BC-001", 2, none⟩
    [("success", Json.bool true), ("data", Json.obj [])] [] rfl rfl).1 rfl rfl

/-- C4 counterexample: the claim says no rendered string ever contains the
text `None` and that every currency value carries two decimals, but
`search_products` interpolates raw values: a product with no `price` field
renders `Price: $None`. -/
theorem c4_counterexample_raw_interpolation :
    search_products ⟨none, none, false⟩ (Except.ok (Json.obj [("success", Json.bool true),
        ("data", Json.arr [Json.obj [("name", Json.str "Towel")]])]))
      = Outcome.ok ("Found 1 product(s):\n" ++ "- Towel (SKU: None, Quantity: None, Price: $None)\n")
    ∧ strContainsSub ("Found 1 product(s):\n" ++ "- Towel (SKU: None, Quantity: None, Price: $None)\n")
        "None" = true :=
  ⟨rfl, rfl⟩

/-- Lookup in a concatenated body: later segments are consulted first. -/
theorem jLookup_append (l1 l2 : List (String × Json)) (k : String) :
    jLookup (l1 ++ l2) k =
      match jLookup l2 k with
      | some v => some v
      | none => jLookup l1 k := by
  induction l1 with
  | nil =>
    show jLookup l2 k = _
    cases jLookup l2 k <;> rfl
  | cons hd tl ih =>
    obtain ⟨k1, v1⟩ := hd
    show (match jLookup (tl ++ l2) k with
      | some v2 => some v2
      | none => if k1 = k then some v1 else none) = _
    rw [ih]
    cases jLookup l2 k with
    | some v => rfl
    | none => rfl

/-- An optional string field never collides with a different key. -/
theorem jLookup_optStrField_ne (k k2 : String) (v : Option String) (h : k ≠ k2) :
    jLookup (optStrField k v) k2 = none := by
  cases v with
  | none => rfl
  | some s =>
    show jLookup (if (s != "") = true then [(k, Json.str s)] else []) k2 = none
    split
    · simp [jLookup, h]
    · rfl

/-- An optional float field never collides with a different key. -/
theorem jLookup_optFloatField_ne (k k2 : String) (v : Option PyFloat) (h : k ≠ k2) :
    jLookup (optFloatField k v) k2 = none := by
  cases v with
  | none => rfl
  | some x => simp [optFloatField, jLookup, h]

/-- An optional int field never collides with a different key. -/
theorem jLookup_optIntField_ne (k k2 : String) (v : Option Int) (h : k ≠ k2) :
    jLookup (optIntField k v) k2 = none := by
  cases v with
  | none => rfl
  | some n => simp [optIntField, jLookup, h]

/-- The cost-breakdown segment never collides with a different key. -/
theorem jLookup_costBreakdownField_ne (k2 : String) (cb : Option String)
    (h : k2 ≠ "costBreakdown") :
    jLookup (costBreakdownField cb) k2 = none := by
  cases cb with
  | none => rfl
  | some s =>
    show jLookup (if (s != "") = true then
        match parseJson s with
        | some v => [("costBreakdown", v)]
        | none => []
      else []) k2 = none
    split
    · cases hp : parseJson s with
      | none => rfl
      | some v => simp [jLookup, Ne.symm h]
    · rfl

/-- Looking up an optional string field at its own key. -/
theorem jLookup_optStrField_self (k : String) (v : Option String) :
    jLookup (optStrField k v) k =
      match v with
      | some s => if s != "" then some (Json.str s) else none
      | none => none := by
  cases v with
  | none => rfl
  | some s =>
    show jLookup (if (s != "") = true then [(k, Json.str s)] else []) k
      = if (s != "") = true then some (Json.str s) else none
    split
    · simp [jLookup]
    · rfl

/-- Looking up an optional float field at its own key. -/
theorem jLookup_optFloatField_self (k : String) (v : Option PyFloat) :
    jLookup (optFloatField k v) k =
      match v with
      | some x => some (Json.num x.m x.e)
      | none => none := by
  cases v with
  | none => rfl
  | some x => simp [optFloatField, jLookup]

/-- Looking up an optional int field at its own key. -/
theorem jLookup_optIntField_self (k : String) (v : Option Int) :
    jLookup (optIntField k v) k =
      match v with
      | some n => some (Json.num n 0)
      | none => none := by
  cases v with
  | none => rfl
  | some n => simp [optIntField, jLookup]

/-- Looking up the cost-breakdown segment at its own key. -/
theorem jLookup_costBreakdownField_self (cb : Option String) :
    jLookup (costBreakdownField cb) "costBreakdown" =
      match cb with
      | some s =>
        if s != "" then
          match parseJson s with
          | some v => some v
          | none => none
        else none
      | none => none := by
  cases cb with
  | none => rfl
  | some s =>
    show jLookup (if (s != "") = true then
        match parseJson s with
        | some v => [("costBreakdown", v)]
        | none => []
      else []) "costBreakdown"
      = if (s != "") = true then
          match parseJson s with
          | some v => some v
          | none => none
        else none
    split
    · cases hp : parseJson s with
      | none => rfl
      | some v => simp [jLookup]
    · rfl

/-- C5 (amended): in the create and update request bodies, a string-valued
optional appears exactly when the caller supplied it as a non-empty string, a
numeric optional appears exactly when it is not `None`, and the breakdown
appears exactly when it is a non-empty parseable text; a call supplying only
the required arguments sends exactly the required fields and no optional
field at all. -/
theorem c5_optional_fields_truthy_inclusion (a : AddProductArgs) (u : UpdateProductArgs) :
    (jLookup (add_product_body a) "sku" ≠ none ↔ ∃ s, a.sku = some s ∧ s ≠ "")
    ∧ (jLookup (add_product_body a) "cost" ≠ none ↔ a.cost ≠ none)
    ∧ (jLookup (add_product_body a) "description" ≠ none
        ↔ ∃ s, a.description = some s ∧ s ≠ "")
    ∧ (jLookup (add_product_body a) "caption" ≠ none ↔ ∃ s, a.caption = some s ∧ s ≠ "")
    ∧ (jLookup (add_product_body a) "costBreakdown" ≠ none
        ↔ ∃ s, a.cost_breakdown = some s ∧ s ≠ "" ∧ parseJson s ≠ none)
    ∧ (a.sku = none → a.cost = none → a.cost_breakdown = none → a.description = none →
        a.caption = none →
        add_product_body a
          = [("name", Json.str a.name), ("type", Json.str a.type),
             ("quantity", Json.num a.quantity 0), ("price", Json.num a.price.m a.price.e)])
    ∧ (jLookup (update_product_body u) "name" ≠ none ↔ ∃ s, u.name = some s ∧ s ≠ "")
    ∧ (jLookup (update_product_body u) "quantity" ≠ none ↔ u.quantity ≠ none)
    ∧ (jLookup (update_product_body u) "price" ≠ none ↔ u.price ≠ none)
    ∧ (u.name = none → u.sku = none → u.type = none → u.quantity = none → u.price = none →
        u.cost = none → u.cost_breakdown = none → u.description = none → u.caption = none →
        update_product_body u = [("product_identifier", Json.str u.product_identifier)]) := by
  refine ⟨?_, ?_, ?_, ?_, ?_, ?_, ?_, ?_, ?_, ?_⟩
  · unfold add_product_body
    rw [jLookup_append, jLookup_costBreakdownField_ne _ _ (by decide)]
    rw [jLookup_append, jLookup_optStrField_ne _ _ _ (by decide)]
    rw [jLookup_append, jLookup_optStrField_ne _ _ _ (by decide)]
    rw [jLookup_append, jLookup_optFloatField_ne _ _ _ (by decide)]
    rw [jLookup_append, jLookup_optStrField_self]
    cases h : a.sku with
    | none => simp [jLookup]
    | some s =>
      rcases eq_or_ne s "" with he | he
      · subst he
        simp [jLookup]
      · simp [jLookup, bne_iff_ne, he]
  · unfold add_product_body
    rw [jLookup_append, jLookup_costBreakdownField_ne _ _ (by decide)]
    rw [jLookup_append, jLookup_optStrField_ne _ _ _ (by decide)]
    rw [jLookup_append, jLookup_optStrField_ne _ _ _ (by decide)]
    rw [jLookup_append, jLookup_optFloatField_self]
    rw [jLookup_append, jLookup_optStrField_ne _ _ _ (by decide)]
    cases h : a.cost with
    | none => simp [jLookup]
    | some x => simp [jLookup]
  · unfold add_product_body
    rw [jLookup_append, jLookup_costBreakdownField_ne _ _ (by decide)]
    rw [jLookup_append, jLookup_optStrField_ne _ _ _ (by decide)]
    rw [jLookup_append, jLookup_optStrField_self]
    rw [jLookup_append, jLookup_optFloatField_ne _ _ _ (by decide)]
    rw [jLookup_append, jLookup_optStrField_ne _ _ _ (by decide)]
    cases h : a.description with
    | none => simp [jLookup]
    | some s =>
      rcases eq_or_ne s "" with he | he
      · subst he
        simp [jLookup]
      · simp [jLookup, bne_iff_ne, he]
  · unfold add_product_body
    rw [jLookup_append, jLookup_costBreakdownField_ne _ _ (by decide)]
    rw [jLookup_append, jLookup_optStrField_self]
    rw [jLookup_append, jLookup_optStrField_ne _ _ _ (by decide)]
    rw [jLookup_append, jLookup_optFloatField_ne _ _ _ (by decide)]
    rw [jLookup_append, jLookup_optStrField_ne _ _ _ (by decide)]
    cases h : a.caption with
    | none => simp [jLookup]
    | some s =>
      rcases eq_or_ne s "" with he | he
      · subst he
        simp [jLookup]
      · simp [jLookup, bne_iff_ne, he]
  · unfold add_product_body
    rw [jLookup_append, jLookup_costBreakdownField_self]
    rw [jLookup_append, jLookup_optStrField_ne _ _ _ (by decide)]
    rw [jLookup_append, jLookup_optStrField_ne _ _ _ (by decide)]
    rw [jLookup_append, jLookup_optFloatField_ne _ _ _ (by decide)]
    rw [jLookup_append, jLookup_optStrField_ne _ _ _ (by decide)]
    cases h : a.cost_breakdown with
    | none => simp [jLookup]
    | some s =>
      rcases eq_or_ne s "" with he | he
      · subst he
        simp [jLookup]
      · cases hp : parseJson s with
        | none => simp [jLookup, bne_iff_ne, he, hp]
        | some v => simp [jLookup, bne_iff_ne, he, hp]
  · intro h1 h2 h3 h4 h5
    simp [add_product_body, h1, h2, h3, h4, h5, optStrField, optFloatField, costBreakdownField]
  · unfold update_product_body
    rw [jLookup_append, jLookup_costBreakdownField_ne _ _ (by decide)]
    rw [jLookup_append, jLookup_optStrField_ne _ _ _ (by decide)]
    rw [jLookup_append, jLookup_optStrField_ne _ _ _ (by decide)]
    rw [jLookup_append, jLookup_optFloatField_ne _ _ _ (by decide)]
    rw [jLookup_append, jLookup_optFloatField_ne _ _ _ (by decide)]
    rw [jLookup_append, jLookup_optIntField_ne _ _ _ (by decide)]
    rw [jLookup_append, jLookup_optStrField_ne _ _ _ (by decide)]
    rw [jLookup_append, jLookup_optStrField_ne _ _ _ (by decide)]
    rw [jLookup_append, jLookup_optStrField_self]
    cases h : u.name with
    | none => simp [jLookup]
    | some s =>
      rcases eq_or_ne s "" with he | he
      · subst he
        simp [jLookup]
      · simp [jLookup, bne_iff_ne, he]
  · unfold update_product_body
    rw [jLookup_append, jLookup_costBreakdownField_ne _ _ (by decide)]
    rw [jLookup_append, jLookup_optStrField_ne _ _ _ (by decide)]
    rw [jLookup_append, jLookup_optStrField_ne _ _ _ (by decide)]
    rw [jLookup_append, jLookup_optFloatField_ne _ _ _ (by decide)]
    rw [jLookup_append, jLookup_optFloatField_ne _ _ _ (by decide)]
    rw [jLookup_append, jLookup_optIntField_self]
    rw [jLookup_append, jLookup_optStrField_ne _ _ _ (by decide)]
    rw [jLookup_append, jLookup_optStrField_ne _ _ _ (by decide)]
    rw [jLookup_append, jLookup_optStrField_ne _ _ _ (by decide)]
    cases h : u.quantity with
    | none => simp [jLookup]
    | some n => simp [jLookup]
  · unfold update_product_body
    rw [jLookup_append, jLookup_costBreakdownField_ne _ _ (by decide)]
    rw [jLookup_append, jLookup_optStrField_ne _ _ _ (by decide)]
    rw [jLookup_append, jLookup_optStrField_ne _ _ _ (by decide)]
    rw [jLookup_append, jLookup_optFloatField_ne _ _ _ (by decide)]
    rw [jLookup_append, jLookup_optFloatField_self]
    rw [jLookup_append, jLookup_optIntField_ne _ _ _ (by decide)]
    rw [jLookup_append, jLookup_optStrField_ne _ _ _ (by decide)]
    rw [jLookup_append, jLookup_optStrField_ne _ _ _ (by decide)]
    rw [jLookup_append, jLookup_optStrField_ne _ _ _ (by decide)]
    cases h : u.price with
    | none => simp [jLookup]
    | some x => simp [jLookup]
  · intro h1 h2 h3 h4 h5 h6 h7 h8 h9
    simp [update_product_body, h1, h2, h3, h4, h5, h6, h7, h8, h9,
      optStrField, optFloatField, optIntField, costBreakdownField]

/-- C5 witness: supplying a non-empty SKU makes the field appear, and a
required-arguments-only create sends exactly the four required fields. -/
theorem c5_optional_fields_truthy_inclusion_witness :
    jLookup (add_product_body ⟨"Towel", "towels", 10, ⟨15, 0⟩, some "TW-1", none, none, none, none⟩)
        "sku" ≠ none
    ∧ add_product_body ⟨"Towel", "towels", 10, ⟨15, 0⟩, none, none, none, none, none⟩
        = [("name", Json.str "Towel"), ("type", Json.str "towels"),
           ("quantity", Json.num 10 0), ("price", Json.num 15 0)] :=
  ⟨(c5_optional_fields_truthy_inclusion
      ⟨"Towel", "towels", 10, ⟨15, 0⟩, some "TW-1", none, none, none, none⟩
      ⟨"BC-1", none, none, none, none, none, none, none, none, none⟩).1.mpr
      ⟨"TW-1", rfl, by decide⟩,
   (c5_optional_fields_truthy_inclusion
      ⟨"Towel", "towels", 10, ⟨15, 0⟩, none, none, none, none, none⟩
      ⟨"BC-1", none, none, none, none, none, none, none, none, none⟩).2.2.2.2.2.1
      rfl rfl rfl rfl rfl⟩

/-- C5 counterexample: the claim says a supplied optional always appears in
the outgoing body, but a caller-supplied empty-string description is dropped
by the Python truthiness test. -/
theorem c5_counterexample_empty_string_dropped :
    (some "" : Option String) ≠ none
    ∧ jLookup (add_product_body ⟨"Towel", "towels", 10, ⟨15, 0⟩, none, none, none, some "", none⟩)
        "description" = none :=
  ⟨by simp, rfl⟩

/-- A failed parse contributes no segment to the create body. -/
theorem costBreakdownField_parse_failed (s : String) (hbad : parseJson s = none) :
    costBreakdownField (some s) = [] := by
  show (if (s != "") = true then
      match parseJson s with
      | some v => [("costBreakdown", v)]
      | none => []
    else []) = []
  split
  · rw [hbad]
  · rfl

/-- C6 (amended): a create or update whose cost-breakdown argument is a
non-empty string that fails to parse logs a warning, omits `costBreakdown`
from the outgoing body, and still returns the success string when the remote
call succeeds; an empty-string argument is skipped by the truthiness guard
before parsing, so the field is equally absent but no warning is logged. -/
theorem c6_invalid_breakdown_fail_soft (a : AddProductArgs) (u : UpdateProductArgs)
    (s : String) (hs : s ≠ "") (hbad : parseJson s = none)
    (ha : a.cost_breakdown = some s) (hu : u.cost_breakdown = some s) :
    add_product_warnings a = ["Failed to parse cost_breakdown: " ++ s]
    ∧ jLookup (add_product_body a) "costBreakdown" = none
    ∧ update_product_warnings u = ["Failed to parse cost_breakdown: " ++ s]
    ∧ jLookup (update_product_body u) "costBreakdown" = none
    ∧ (∀ fs dfs, pyTruthyO (jLookup fs "success") = true →
        jLookup fs "data" = some (Json.obj dfs) → jLookup dfs "costBreakdown" = none →
        add_product a (Except.ok (Json.obj fs))
          = Outcome.ok ("Successfully added " ++ toString a.quantity ++ " units of \x27"
              ++ a.name ++ "\x27 (SKU: " ++ pyStrO (jLookup dfs "sku")
              ++ ") to inventory at $" ++ decRepr a.price.m a.price.e ++ " per unit." ++ ""))
    ∧ (∀ fs, pyTruthyO (jLookup fs "success") = true →
        update_product u (Except.ok (Json.obj fs)) = update_product_render u) := by
  have hne : (s != "") = true := bne_iff_ne.mpr hs
  have hwarn : costBreakdownWarnings (some s) = ["Failed to parse cost_breakdown: " ++ s] := by
    show (if (s != "") = true then
        match parseJson s with
        | some _ => []
        | none => ["Failed to parse cost_breakdown: " ++ s]
      else []) = _
    rw [if_pos hne, hbad]
  have hfield := costBreakdownField_parse_failed s hbad
  refine ⟨?_, ?_, ?_, ?_, ?_, ?_⟩
  · show costBreakdownWarnings a.cost_breakdown = _
    rw [ha, hwarn]
  · unfold add_product_body
    rw [ha, hfield, List.append_nil]
    rw [jLookup_append, jLookup_optStrField_ne _ _ _ (by decide)]
    rw [jLookup_append, jLookup_optStrField_ne _ _ _ (by decide)]
    rw [jLookup_append, jLookup_optFloatField_ne _ _ _ (by decide)]
    rw [jLookup_append, jLookup_optStrField_ne _ _ _ (by decide)]
    rfl
  · show costBreakdownWarnings u.cost_breakdown = _
    rw [hu, hwarn]
  · unfold update_product_body
    rw [hu, hfield, List.append_nil]
    rw [jLookup_append, jLookup_optStrField_ne _ _ _ (by decide)]
    rw [jLookup_append, jLookup_optStrField_ne _ _ _ (by decide)]
    rw [jLookup_append, jLookup_optFloatField_ne _ _ _ (by decide)]
    rw [jLookup_append, jLookup_optFloatField_ne _ _ _ (by decide)]
    rw [jLookup_append, jLookup_optIntField_ne _ _ _ (by decide)]
    rw [jLookup_append, jLookup_optStrField_ne _ _ _ (by decide)]
    rw [jLookup_append, jLookup_optStrField_ne _ _ _ (by decide)]
    rw [jLookup_append, jLookup_optStrField_ne _ _ _ (by decide)]
    rfl
  · intro fs dfs hsucc hdata hnone
    have hrun : add_product a (Except.ok (Json.obj fs))
        = if pyTruthyO (jLookup fs "success") then add_product_render a fs
          else Outcome.toolError ("Failed to add product: " ++ pyErrText fs) := rfl
    rw [hrun, hsucc]
    show add_product_render a fs = _
    unfold add_product_render
    rw [hdata]
    simp only [Option.getD_some]
    rw [hnone]
    rfl
  · intro fs hsucc
    have hrun : update_product u (Except.ok (Json.obj fs))
        = if pyTruthyO (jLookup fs "success") then update_product_render u
          else Outcome.toolError ("Failed to update product: " ++ pyErrText fs) := rfl
    rw [hrun, hsucc]
    rfl

/-- C6 witness: the unparseable text `not json` triggers the warning, omits
the field, and the create still succeeds against a successful remote reply. -/
theorem c6_invalid_breakdown_fail_soft_witness :
    add_product_warnings ⟨"Towel", "towels", 1, ⟨15, 0⟩, none, none, some "not json", none, none⟩
      = ["Failed to parse cost_breakdown: " ++ "not json"]
    ∧ add_product ⟨"Towel", "towels", 1, ⟨15, 0⟩, none, none, some "not json", none, none⟩
        (Except.ok (Json.obj [("success", Json.bool true),
          ("data", Json.obj [("sku", Json.str "TW-1")])]))
      = Outcome.ok ("Successfully added " ++ toString (1 : Int) ++ " units of \x27"
          ++ "Towel" ++ "\x27 (SKU: " ++ pyStrO (jLookup [("sku", Json.str "TW-1")] "sku")
          ++ ") to inventory at $" ++ decRepr 15 0 ++ " per unit." ++ "") :=
  ⟨(c6_invalid_breakdown_fail_soft
      ⟨"Towel", "towels", 1, ⟨15, 0⟩, none, none, some "not json", none, none⟩
      ⟨"BC-1", none, none, none, none, none, none, some "not json", none, none⟩
      "not json" (by decide) rfl rfl rfl).1,
   (c6_invalid_breakdown_fail_soft
      ⟨"Towel", "towels", 1, ⟨15, 0⟩, none, none, some "not json", none, none⟩
      ⟨"BC-1", none, none, none, none, none, none, some "not json", none, none⟩
      "not json" (by decide) rfl rfl rfl).2.2.2.2.1
      [("success", Json.bool true), ("data", Json.obj [("sku", Json.str "TW-1")])]
      [("sku", Json.str "TW-1")] rfl rfl rfl⟩

/-- C6 counterexample: the empty string is not valid JSON, yet the claim's
promised warning is not logged — the truthiness guard skips the parse
entirely (the field is still absent and the operation unaffected). -/
theorem c6_counterexample_empty_breakdown_no_warning :
    parseJson "" = none
    ∧ add_product_warnings ⟨"Towel", "towels", 1, ⟨15, 0⟩, none, none, some "", none, none⟩ = []
    ∧ jLookup (add_product_body ⟨"Towel", "towels", 1, ⟨15, 0⟩, none, none, some "", none, none⟩)
        "costBreakdown" = none :=
  ⟨rfl, rfl, rfl⟩

/-- C3 (amended): every listing operation renders its fixed no-results
sentence on zero items (`get_top_products` parameterizes it by the period).
Past five items, `search_products`, `list_products` and
`get_low_stock_alerts` preview exactly five entries and append the remainder
count `total - 5`; `get_sales_history` and `get_monthly_profits` preview
exactly five entries but append no remainder count; `get_recent_sales` and
`get_top_products` render every item with no cap and no remainder count. -/
theorem c3_listing_preview_truncation (fs : List (String × Json)) (sa : SearchArgs)
    (la : ListArgs) (sha : SalesHistoryArgs) (lim months threshold tlim : Int)
    (period sort_by : String)
    (hsucc : pyTruthyO (jLookup fs "success") = true) :
    (jLookup fs "data" = some (Json.arr []) →
      search_products sa (Except.ok (Json.obj fs))
          = Outcome.ok "No products found matching your search."
      ∧ list_products la (Except.ok (Json.obj fs)) = Outcome.ok "No products found."
      ∧ get_sales_history sha (Except.ok (Json.obj fs))
          = Outcome.ok "No sales found for the specified criteria."
      ∧ get_recent_sales lim (Except.ok (Json.obj fs)) = Outcome.ok "No sales recorded yet."
      ∧ get_monthly_profits months (Except.ok (Json.obj fs))
          = Outcome.ok "No profit data available."
      ∧ get_top_products period sort_by tlim (Except.ok (Json.obj fs))
          = Outcome.ok ("No sales data available for " ++ period ++ ".")
      ∧ get_low_stock_alerts threshold (Except.ok (Json.obj fs))
          = Outcome.ok "No low stock alerts. All products are well stocked.")
    ∧ (∀ ps ls, jLookup fs "data" = some (Json.arr ps) → ps.length > 5 →
        optMapM search_products_line (ps.take 5) = some ls →
        ls.length = 5
        ∧ search_products sa (Except.ok (Json.obj fs))
            = Outcome.ok ("Found " ++ toString ps.length ++ " product(s):\n" ++ String.join ls
                ++ ("... and " ++ toString (ps.length - 5) ++ " more.")))
    ∧ (∀ ps ls, jLookup fs "data" = some (Json.arr ps) → ps.length > 5 →
        optMapM list_products_line (ps.take 5) = some ls →
        ls.length = 5
        ∧ list_products la (Except.ok (Json.obj fs))
            = Outcome.ok ("Found " ++ toString ps.length ++ " product(s):\n" ++ String.join ls
                ++ ("... and " ++ toString (ps.length - 5) ++ " more.")))
    ∧ (∀ ps ls, jLookup fs "data" = some (Json.arr ps) → ps.length > 5 →
        optMapM low_stock_line (ps.take 5) = some ls →
        ls.length = 5
        ∧ get_low_stock_alerts threshold (Except.ok (Json.obj fs))
            = Outcome.ok (toString ps.length ++ " low stock alert(s):\n" ++ String.join ls
                ++ ("... and " ++ toString (ps.length - 5) ++ " more items need restocking.")))
    ∧ (∀ ss ls, jLookup fs "data" = some (Json.arr ss) → ss.length > 5 →
        optMapM sales_history_line (ss.take 5) = some ls →
        ls.length = 5
        ∧ get_sales_history sha (Except.ok (Json.obj fs))
            = Outcome.ok ("Found " ++ toString ss.length ++ " sale(s):\n" ++ String.join ls))
    ∧ (∀ ds ls, jLookup fs "data" = some (Json.arr ds) → ds.length > 5 →
        optMapM monthly_profits_line (ds.take 5) = some ls →
        ls.length = 5
        ∧ get_monthly_profits months (Except.ok (Json.obj fs))
            = Outcome.ok ("Monthly profits (last " ++ toString months ++ " months):\n"
                ++ String.join ls))
    ∧ (∀ ss ls, jLookup fs "data" = some (Json.arr ss) → ss ≠ [] →
        optMapM recent_sales_line ss = some ls →
        ls.length = ss.length
        ∧ get_recent_sales lim (Except.ok (Json.obj fs))
            = Outcome.ok ("Recent " ++ toString ss.length ++ " sale(s):\n" ++ String.join ls))
    ∧ (∀ ps ls, jLookup fs "data" = some (Json.arr ps) → ps ≠ [] →
        top_products_lines 1 ps = some ls →
        ls.length = ps.length
        ∧ get_top_products period sort_by tlim (Except.ok (Json.obj fs))
            = Outcome.ok ("Top " ++ toString ps.length ++ " product(s) by " ++ sort_by
                ++ " for " ++ period ++ ":\n" ++ String.join ls)) := by
  refine ⟨?_, ?_, ?_, ?_, ?_, ?_, ?_, ?_⟩
  · intro hdata
    refine ⟨?_, ?_, ?_, ?_, ?_, ?_, ?_⟩
    · have hrun : search_products sa (Except.ok (Json.obj fs))
          = if pyTruthyO (jLookup fs "success") then search_products_render fs
            else Outcome.toolError ("Search failed: " ++ pyErrText fs) := rfl
      rw [hrun, hsucc]
      show search_products_render fs = _
      unfold search_products_render
      rw [hdata]
      rfl
    · have hrun : list_products la (Except.ok (Json.obj fs))
          = if pyTruthyO (jLookup fs "success") then list_products_render fs
            else Outcome.toolError ("Failed to list products: " ++ pyErrText fs) := rfl
      rw [hrun, hsucc]
      show list_products_render fs = _
      unfold list_products_render
      rw [hdata]
      rfl
    · have hrun : get_sales_history sha (Except.ok (Json.obj fs))
          = if pyTruthyO (jLookup fs "success") then get_sales_history_render fs
            else Outcome.toolError ("Failed to get sales history: " ++ pyErrText fs) := rfl
      rw [hrun, hsucc]
      show get_sales_history_render fs = _
      unfold get_sales_history_render
      rw [hdata]
      rfl
    · have hrun : get_recent_sales lim (Except.ok (Json.obj fs))
          = if pyTruthyO (jLookup fs "success") then get_recent_sales_render fs
            else Outcome.toolError ("Failed to get sales: " ++ pyErrText fs) := rfl
      rw [hrun, hsucc]
      show get_recent_sales_render fs = _
      unfold get_recent_sales_render
      rw [hdata]
      rfl
    · have hrun : get_monthly_profits months (Except.ok (Json.obj fs))
          = if pyTruthyO (jLookup fs "success") then get_monthly_profits_render months fs
            else Outcome.toolError ("Failed to get monthly profits: " ++ pyErrText fs) := rfl
      rw [hrun, hsucc]
      show get_monthly_profits_render months fs = _
      unfold get_monthly_profits_render
      rw [hdata]
      rfl
    · have hrun : get_top_products period sort_by tlim (Except.ok (Json.obj fs))
          = if pyTruthyO (jLookup fs "success") then get_top_products_render period sort_by fs
            else Outcome.toolError ("Failed to get top products: " ++ pyErrText fs) := rfl
      rw [hrun, hsucc]
      show get_top_products_render period sort_by fs = _
      unfold get_top_products_render
      rw [hdata]
      rfl
    · have hrun : get_low_stock_alerts threshold (Except.ok (Json.obj fs))
          = if pyTruthyO (jLookup fs "success") then get_low_stock_alerts_render fs
            else Outcome.toolError ("Failed to get alerts: " ++ pyErrText fs) := rfl
      rw [hrun, hsucc]
      show get_low_stock_alerts_render fs = _
      unfold get_low_stock_alerts_render
      rw [hdata]
      rfl
  · intro ps ls hdata h5 hmap
    have hne : pyTruthy (Json.arr ps) = true := by
      cases ps with
      | nil => simp at h5
      | cons x xs => rfl
    refine ⟨?_, ?_⟩
    · rw [optMapM_length _ _ _ hmap, List.length_take]
      omega
    · have hrun : search_products sa (Except.ok (Json.obj fs))
          = if pyTruthyO (jLookup fs "success") then search_products_render fs
            else Outcome.toolError ("Search failed: " ++ pyErrText fs) := rfl
      rw [hrun, hsucc]
      show search_products_render fs = _
      unfold search_products_render
      rw [hdata]
      simp only [Option.getD_some, hne, Bool.not_true, Bool.false_eq_true, if_false]
      rw [hmap]
      dsimp only
      rw [if_pos h5]
  · intro ps ls hdata h5 hmap
    have hne : pyTruthy (Json.arr ps) = true := by
      cases ps with
      | nil => simp at h5
      | cons x xs => rfl
    refine ⟨?_, ?_⟩
    · rw [optMapM_length _ _ _ hmap, List.length_take]
      omega
    · have hrun : list_products la (Except.ok (Json.obj fs))
          = if pyTruthyO (jLookup fs "success") then list_products_render fs
            else Outcome.toolError ("Failed to list products: " ++ pyErrText fs) := rfl
      rw [hrun, hsucc]
      show list_products_render fs = _
      unfold list_products_render
      rw [hdata]
      simp only [Option.getD_some, hne, Bool.not_true, Bool.false_eq_true, if_false]
      rw [hmap]
      dsimp only
      rw [if_pos h5]
  · intro ps ls hdata h5 hmap
    have hne : pyTruthy (Json.arr ps) = true := by
      cases ps with
      | nil => simp at h5
      | cons x xs => rfl
    refine ⟨?_, ?_⟩
    · rw [optMapM_length _ _ _ hmap, List.length_take]
      omega
    · have hrun : get_low_stock_alerts threshold (Except.ok (Json.obj fs))
          = if pyTruthyO (jLookup fs "success") then get_low_stock_alerts_render fs
            else Outcome.toolError ("Failed to get alerts: " ++ pyErrText fs) := rfl
      rw [hrun, hsucc]
      show get_low_stock_alerts_render fs = _
      unfold get_low_stock_alerts_render
      rw [hdata]
      simp only [Option.getD_some, hne, Bool.not_true, Bool.false_eq_true, if_false]
      rw [hmap]
      dsimp only
      rw [if_pos h5]
  · intro ss ls hdata h5 hmap
    have hne : pyTruthy (Json.arr ss) = true := by
      cases ss with
      | nil => simp at h5
      | cons x xs => rfl
    refine ⟨?_, ?_⟩
    · rw [optMapM_length _ _ _ hmap, List.length_take]
      omega
    · have hrun : get_sales_history sha (Except.ok (Json.obj fs))
          = if pyTruthyO (jLookup fs "success") then get_sales_history_render fs
            else Outcome.toolError ("Failed to get sales history: " ++ pyErrText fs) := rfl
      rw [hrun, hsucc]
      show get_sales_history_render fs = _
      unfold get_sales_history_render
      rw [hdata]
      simp only [Option.getD_some, hne, Bool.not_true, Bool.false_eq_true, if_false]
      rw [hmap]
  · intro ds ls hdata h5 hmap
    have hne : pyTruthy (Json.arr ds) = true := by
      cases ds with
      | nil => simp at h5
      | cons x xs => rfl
    refine ⟨?_, ?_⟩
    · rw [optMapM_length _ _ _ hmap, List.length_take]
      omega
    · have hrun : get_monthly_profits months (Except.ok (Json.obj fs))
          = if pyTruthyO (jLookup fs "success") then get_monthly_profits_render months fs
            else Outcome.toolError ("Failed to get monthly profits: " ++ pyErrText fs) := rfl
      rw [hrun, hsucc]
      show get_monthly_profits_render months fs = _
      unfold get_monthly_profits_render
      rw [hdata]
      simp only [Option.getD_some, hne, Bool.not_true, Bool.false_eq_true, if_false]
      rw [hmap]
  · intro ss ls hdata hne0 hmap
    have hne : pyTruthy (Json.arr ss) = true := by
      cases ss with
      | nil => exact absurd rfl hne0
      | cons x xs => rfl
    refine ⟨optMapM_length _ _ _ hmap, ?_⟩
    have hrun : get_recent_sales lim (Except.ok (Json.obj fs))
        = if pyTruthyO (jLookup fs "success") then get_recent_sales_render fs
          else Outcome.toolError ("Failed to get sales: " ++ pyErrText fs) := rfl
    rw [hrun, hsucc]
    show get_recent_sales_render fs = _
    unfold get_recent_sales_render
    rw [hdata]
    simp only [Option.getD_some, hne, Bool.not_true, Bool.false_eq_true, if_false]
    rw [hmap]
  · intro ps ls hdata hne0 hmap
    have hne : pyTruthy (Json.arr ps) = true := by
      cases ps with
      | nil => exact absurd rfl hne0
      | cons x xs => rfl
    refine ⟨top_products_lines_length _ _ _ hmap, ?_⟩
    have hrun : get_top_products period sort_by tlim (Except.ok (Json.obj fs))
        = if pyTruthyO (jLookup fs "success") then get_top_products_render period sort_by fs
          else Outcome.toolError ("Failed to get top products: " ++ pyErrText fs) := rfl
    rw [hrun, hsucc]
    show get_top_products_render period sort_by fs = _
    unfold get_top_products_render
    rw [hdata]
    simp only [Option.getD_some, hne, Bool.not_true, Bool.false_eq_true, if_false]
    rw [hmap]

/-- C3 witness: six matching products make `search_products` preview exactly
five entries and append `... and 1 more.`. -/
theorem c3_listing_preview_truncation_witness :
    search_products ⟨none, none, false⟩ (Except.ok (Json.obj [("success", Json.bool true),
      ("data", Json.arr [
        Json.obj [("name", Json.str "Towel"), ("sku", Json.str "TW-1"),
          ("quantity", Json.num 3 0), ("price", Json.num 155 1)],
        Json.obj [("name", Json.str "Towel"), ("sku", Json.str "TW-1"),
          ("quantity", Json.num 3 0), ("price", Json.num 155 1)],
        Json.obj [("name", Json.str "Towel"), ("sku", Json.str "TW-1"),
          ("quantity", Json.num 3 0), ("price", Json.num 155 1)],
        Json.obj [("name", Json.str "Towel"), ("sku", Json.str "TW-1"),
          ("quantity", Json.num 3 0), ("price", Json.num 155 1)],
        Json.obj [("name", Json.str "Towel"), ("sku", Json.str "TW-1"),
          ("quantity", Json.num 3 0), ("price", Json.num 155 1)],
        Json.obj [("name", Json.str "Towel"), ("sku", Json.str "TW-1"),
          ("quantity", Json.num 3 0), ("price", Json.num 155 1)]])]))
      = Outcome.ok "Found 6 product(s):\n- Towel (SKU: TW-1, Quantity: 3, Price: $15.5)\n- Towel (SKU: TW-1, Quantity: 3, Price: $15.5)\n- Towel (SKU: TW-1, Quantity: 3, Price: $15.5)\n- Towel (SKU: TW-1, Quantity: 3, Price: $15.5)\n- Towel (SKU: TW-1, Quantity: 3, Price: $15.5)\n... and 1 more." :=
  ((c3_listing_preview_truncation [("success", Json.bool true),
      ("data", Json.arr [
        Json.obj [("name", Json.str "Towel"), ("sku", Json.str "TW-1"),
          ("quantity", Json.num 3 0), ("price", Json.num 155 1)],
        Json.obj [("name", Json.str "Towel"), ("sku", Json.str "TW-1"),
          ("quantity", Json.num 3 0), ("price", Json.num 155 1)],
        Json.obj [("name", Json.str "Towel"), ("sku", Json.str "TW-1"),
          ("quantity", Json.num 3 0), ("price", Json.num 155 1)],
        Json.obj [("name", Json.str "Towel"), ("sku", Json.str "TW-1"),
          ("quantity", Json.num 3 0), ("price", Json.num 155 1)],
        Json.obj [("name", Json.str "Towel"), ("sku", Json.str "TW-1"),
          ("quantity", Json.num 3 0), ("price", Json.num 155 1)],
        Json.obj [("name", Json.str "Towel"), ("sku", Json.str "TW-1"),
          ("quantity", Json.num 3 0), ("price", Json.num 155 1)]])]
      ⟨none, none, false⟩ ⟨none, false⟩ ⟨none, none, none, 10⟩ 5 6 10 5 "month" "revenue"
      rfl).2.1
    [Json.obj [("name", Json.str "Towel"), ("sku", Json.str "TW-1"),
        ("quantity", Json.num 3 0), ("price", Json.num 155 1)],
      Json.obj [("name", Json.str "Towel"), ("sku", Json.str "TW-1"),
        ("quantity", Json.num 3 0), ("price", Json.num 155 1)],
      Json.obj [("name", Json.str "Towel"), ("sku", Json.str "TW-1"),
        ("quantity", Json.num 3 0), ("price", Json.num 155 1)],
      Json.obj [("name", Json.str "Towel"), ("sku", Json.str "TW-1"),
        ("quantity", Json.num 3 0), ("price", Json.num 155 1)],
      Json.obj [("name", Json.str "Towel"), ("sku", Json.str "TW-1"),
        ("quantity", Json.num 3 0), ("price", Json.num 155 1)],
      Json.obj [("name", Json.str "Towel"), ("sku", Json.str "TW-1"),
        ("quantity", Json.num 3 0), ("price", Json.num 155 1)]]
    ["- Towel (SKU: TW-1, Quantity: 3, Price: $15.5)\n",
      "- Towel (SKU: TW-1, Quantity: 3, Price: $15.5)\n",
      "- Towel (SKU: TW-1, Quantity: 3, Price: $15.5)\n",
      "- Towel (SKU: TW-1, Quantity: 3, Price: $15.5)\n",
      "- Towel (SKU: TW-1, Quantity: 3, Price: $15.5)\n"]
    rfl (by decide) rfl).2

/-- C3 counterexample: six recorded sales make the claim demand five
previewed entries plus `... and 1 more.`, but `get_recent_sales` renders all
six lines (seven newlines in total) and appends no remainder count. -/
theorem c3_counterexample_recent_sales_uncapped :
    get_recent_sales 10 (Except.ok (Json.obj [("success", Json.bool true),
      ("data", Json.arr [Json.obj [("quantity", Json.num 1 0)],
        Json.obj [("quantity", Json.num 1 0)], Json.obj [("quantity", Json.num 1 0)],
        Json.obj [("quantity", Json.num 1 0)], Json.obj [("quantity", Json.num 1 0)],
        Json.obj [("quantity", Json.num 1 0)]])]))
      = Outcome.ok "Recent 6 sale(s):\n- Unknown (1 units, $0.00)\n- Unknown (1 units, $0.00)\n- Unknown (1 units, $0.00)\n- Unknown (1 units, $0.00)\n- Unknown (1 units, $0.00)\n- Unknown (1 units, $0.00)\n"
    ∧ countNL "Recent 6 sale(s):\n- Unknown (1 units, $0.00)\n- Unknown (1 units, $0.00)\n- Unknown (1 units, $0.00)\n- Unknown (1 units, $0.00)\n- Unknown (1 units, $0.00)\n- Unknown (1 units, $0.00)\n" = 7
    ∧ strContainsSub "Recent 6 sale(s):\n- Unknown (1 units, $0.00)\n- Unknown (1 units, $0.00)\n- Unknown (1 units, $0.00)\n- Unknown (1 units, $0.00)\n- Unknown (1 units, $0.00)\n- Unknown (1 units, $0.00)\n" "more" = false :=
  ⟨rfl, rfl, rfl⟩

end Inventory










